import Mathlib

/-!
Shallow embedding of the order-inventory reservation subsystem of the
marketing_server repository:

* `apps/v1/models/warehouse.py`   — `Batch` (save, available_stock),
  `InventoryReservation`, `ProductItemRelation`
* `apps/v1/models/promotion.py`   — `ActivityProduct.calculate_available_stock`
* `apps/v1/models/ecommerce.py`   — `Order`, `OrderItem`, `OrderInventoryLog`,
  `OrderConfiguration`
* `apps/v1/services/order_services.py` — `validate_cart_items`,
  `validate_activity`, `check_inventory_availability`,
  `create_order_with_inventory_reservation`, `confirm_order_payment`,
  `cancel_order`, `cleanup_expired_reservations`

Conventions of the embedding:
* Django model rows become Lean structures; the database becomes an explicit
  `DB` record of lists, threaded through every operation.
* Machine times (`timezone.now()`, `payment_deadline`, dates) are abstract
  integers; `now` and `today` are passed explicitly.
* Python `float` quantities (`ProductItemRelation.quantity`) are modelled as
  exact rationals `ℚ`; `int(x)` is truncation toward zero (`pyint`).
* Redis is a list of currently-set keys; `SET key NX EX ttl` becomes a
  membership test plus insertion (TTL expiry is not modelled — all runs are
  assumed to finish inside every lease's TTL window).
* Exceptions become `Except` / `Option` error values.  The error constructors
  of `OrderErr` correspond one-to-one to the distinct message strings raised
  or returned by the source.
-/

deriving instance DecidableEq for Except

/-- Python `int()` applied to an exact rational (the embedding of
`int(relation.quantity * quantity)`): truncation toward zero.  A rational is
`num / den` with `den > 0`, so truncating division of the numerator by the
denominator is exactly Python's `int()`. -/
def pyint (q : ℚ) : Int := q.num.tdiv (q.den : Int)

/-- The two-line clamp used by `cancel_order` and
`cleanup_expired_reservations`:
`reserved_stock -= qty; if reserved_stock < 0: reserved_stock = 0`. -/
def clampAtZero (x : Int) : Int := if x < 0 then 0 else x

/-- Rational multiplication, computed on the raw numerator/denominator pair.
Value-equal to `a * b` (theorem `ratMul_eq` below); spelled this way because
the library's `Rat.mul` is `@[irreducible]` and would block kernel
evaluation of the concrete scenarios. -/
def ratMul (a b : ℚ) : ℚ := mkRat (a.num * b.num) (a.den * b.den)

/-- Rational addition on raw numerator/denominator pairs; value-equal to
`a + b` (theorem `ratAdd_eq` below). -/
def ratAdd (a b : ℚ) : ℚ :=
  mkRat (a.num * (b.den : Int) + b.num * (a.den : Int)) (a.den * b.den)

/-- Python's `//` of an integer by an exact positive rational
(`batch.quantity // relation.quantity`): floor of the true quotient,
computed as flooring integer division (theorem `pyFloorDiv_eq_floor`
below). -/
def pyFloorDiv (a : Int) (q : ℚ) : Int := (a * (q.den : Int)).fdiv q.num

/-- The `Batch` (warehouse.py).  `quantity` is the source's 總數量 field
(`total_quantity` in the spec's vocabulary), `stock` is 常態庫存
(normal stock).  Dates are day numbers; `expiry_date = none` models a null
expiry date. -/
structure Batch where
  id : Nat
  itemId : Option Nat
  batch_number : String
  warehouse : String
  quantity : Int
  active_stock : Int
  stock : Int
  reserved_stock : Int
  box_count : Int
  expiry_date : Option Int
  days_to_expiry : Option Int
  state : String
deriving DecidableEq, Repr

/-- The `Batch.save` (warehouse.py lines 102–114): recompute `days_to_expiry`
and possibly flip `state` to `"expired"`, then restore the stock identity by
recomputing `stock` (normal stock) whenever
`active_stock + stock + reserved_stock ≠ quantity`. -/
def Batch.save (today : Int) (b : Batch) : Batch :=
  let b1 :=
    match b.expiry_date with
    | some d =>
      let days := d - today
      { b with days_to_expiry := some days,
               state := if days ≤ 0 then "expired" else b.state }
    | none => b
  if b1.active_stock + b1.stock + b1.reserved_stock ≠ b1.quantity then
    { b1 with stock := b1.quantity - b1.active_stock - b1.reserved_stock }
  else b1

/-- The `Batch.available_stock` (warehouse.py lines 116–119):
`(stock or 0) + (active_stock or 0) - (reserved_stock or 0)`; the fields are
non-nullable integers, so the `or 0` guards are identities here. -/
def Batch.available_stock (b : Batch) : Int :=
  b.stock + b.active_stock - b.reserved_stock

/-- The `Product` (ecommerce.py), restricted to the fields the reservation core
reads: soft-deletion flag and the default price relation
(`product.default_price.price`; `none` models the absence of a
`ProductDefaultPrice` row). -/
structure Product where
  id : Nat
  product_name : String
  is_deleted : Bool
  default_price : Option ℚ
deriving DecidableEq, Repr

/-- The `Activity` (promotion.py), restricted to the fields read by
`validate_activity`. -/
structure Activity where
  id : Nat
  name : String
  is_deleted : Bool
  start_date : Int
  end_date : Int
deriving DecidableEq, Repr

/-- The `ActivityProduct` (promotion.py): the activity-scoped product offer with
its activity price and cached derived `stock`. -/
structure ActivityProduct where
  activityId : Nat
  productId : Nat
  price : ℚ
  stock : Int
deriving DecidableEq, Repr

/-- The `ProductItemRelation` (warehouse.py): bill-of-materials row.
`batchId = none` models the nullable `batch` foreign key (SET_NULL);
`quantity` is the fractional per-unit consumption. -/
structure ProductItemRelation where
  productId : Nat
  itemId : Nat
  batchId : Option Nat
  quantity : ℚ
deriving DecidableEq, Repr

/-- A cart line as consumed by the order service.  `product` and `activity`
hold the referenced rows directly (in Python, `cart_item.product` /
`cart_item.activity` are the related objects; `none` models a null
reference). -/
structure CartItem where
  product : Option Product
  activity : Option Activity
  quantity : Int
deriving DecidableEq, Repr

/-- The `shipping_info` dict passed to the order service. -/
structure ShippingInfo where
  name : String
  phone : String
  address : String
  notes : String
deriving DecidableEq, Repr

/-- The `Order` (ecommerce.py), restricted to the fields the core touches. -/
structure Order where
  id : Nat
  order_number : String
  userId : Nat
  status : String
  payment_deadline : Int
  lock_key : String
  receiver_name : String
  receiver_phone : String
  receiver_address : String
  shipping_notes : String
  total_amount : ℚ
  final_amount : ℚ
  paid_at : Option Int
  cancelled_at : Option Int
  payment_method : Option String
  order_notes : Option String
deriving DecidableEq, Repr

/-- The `OrderItem` (ecommerce.py). -/
structure OrderItem where
  orderId : Nat
  productId : Nat
  activityId : Option Nat
  quantity : Int
  unit_price : ℚ
  total_price : ℚ
  is_gift : Bool
deriving DecidableEq, Repr

/-- The `InventoryReservation` (warehouse.py): binding artifact between an order
and a batch.  `expires_at` is nullable in the schema. -/
structure InventoryReservation where
  id : Nat
  orderId : Nat
  batchId : Nat
  itemId : Nat
  quantity : Int
  is_confirmed : Bool
  expires_at : Option Int
deriving DecidableEq, Repr

/-- The `OrderInventoryLog` (ecommerce.py): append-only audit entry. -/
structure OrderInventoryLog where
  orderId : Nat
  batchId : Nat
  operation : String
  quantity : Int
  operatorId : Option Nat
  note : String
deriving DecidableEq, Repr

/-- The `OrderConfiguration` (ecommerce.py). -/
structure OrderConfig where
  payment_timeout_minutes : Int
  inventory_lock_seconds : Int
deriving DecidableEq, Repr

/-- The relational store: one list per table the core touches. -/
structure DB where
  activity_products : List ActivityProduct
  relations : List ProductItemRelation
  batches : List Batch
  orders : List Order
  order_items : List OrderItem
  reservations : List InventoryReservation
  logs : List OrderInventoryLog
deriving DecidableEq, Repr

/-- Fetch a batch row by primary key (`relation.batch`, re-read from the
store on every access, as Django does inside the service loops). -/
def getBatch (db : DB) (bid : Nat) : Option Batch :=
  db.batches.find? (fun b => decide (b.id = bid))

/-- Fetch an order row by primary key. -/
def getOrder (db : DB) (oid : Nat) : Option Order :=
  db.orders.find? (fun o => decide (o.id = oid))

/-- The `ActivityProduct.objects.filter(activity=…, product=…).first()`. -/
def getActivityProduct (db : DB) (aid pid : Nat) : Option ActivityProduct :=
  db.activity_products.find?
    (fun ap => decide (ap.activityId = aid) && decide (ap.productId = pid))

/-- The `ProductItemRelation.objects.filter(product=product)`. -/
def relationsOf (db : DB) (pid : Nat) : List ProductItemRelation :=
  db.relations.filter (fun rel => decide (rel.productId = pid))

/-- Persist a mutated batch row (UPDATE by primary key). -/
def updateBatch (db : DB) (b' : Batch) : DB :=
  { db with batches := db.batches.map (fun b => if b.id = b'.id then b' else b) }

/-- Persist a mutated order row (UPDATE by primary key). -/
def updateOrder (db : DB) (o' : Order) : DB :=
  { db with orders := db.orders.map (fun o => if o.id = o'.id then o' else o) }

/-- Append one audit entry (an `OrderInventoryLog.objects.create`). -/
def addLog (db : DB) (e : OrderInventoryLog) : DB :=
  { db with logs := db.logs ++ [e] }

/-- The distinct failure modes of the order services.  Each constructor
corresponds to one distinct exception message raised (or error string
returned) by `order_services.py`; payloads carry the interpolated names. -/
inductive OrderErr
  /-- "訂單正在處理中，請勿重複提交" (duplication lock already held). -/
  | duplication
  /-- "庫存競爭，請稍後再試" (failed to acquire a batch lock). -/
  | contention
  /-- "購物車為空". -/
  | emptyCart
  /-- The `cart_item.product` is null ("商品不存在" in `validate_cart_items`;
  an attribute error on the later unguarded accesses). -/
  | productMissing
  /-- "商品 … 已下架". -/
  | productRemoved (name : String)
  /-- "商品 … 數量必須大於0". -/
  | nonpositiveQuantity (name : String)
  /-- "活動 … 已停用". -/
  | activityDisabled (name : String)
  /-- "活動 … 尚未開始". -/
  | activityNotStarted (name : String)
  /-- "活動 … 已結束". -/
  | activityEnded (name : String)
  /-- "商品 … 不在活動 … 的適用範圍內". -/
  | productNotInActivity (productName activityName : String)
  /-- "商品 … 沒有設定庫存關聯". -/
  | noStockRelation (name : String)
  /-- "商品 … 庫存不足" (`check_inventory_availability`). -/
  | insufficient (name : String)
  /-- "商品 … (批號 …) 庫存不足" (in-transaction re-check). -/
  | insufficientBatch (productName batchNumber : String)
deriving DecidableEq, Repr

/-- First error produced by applying `f` along a list — the embedding of a
Python loop that `raise`s on the first offending element. -/
def firstSome {α β : Type} (f : α → Option β) : List α → Option β
  | [] => none
  | a :: rest =>
    match f a with
    | some e => some e
    | none => firstSome f rest

/-- The `validate_activity` (order_services.py lines 65–92). -/
def validate_activity (now : Int) (db : DB) (a : Activity) (p : Product) :
    Option OrderErr :=
  if a.is_deleted then some (.activityDisabled a.name)
  else if now < a.start_date then some (.activityNotStarted a.name)
  else if a.end_date < now then some (.activityEnded a.name)
  else
    match getActivityProduct db a.id p.id with
    | none => some (.productNotInActivity p.product_name a.name)
    | some _ => none

/-- Validation of a single cart line, as done inside the loop of
`validate_cart_items`. -/
def validateItem (now : Int) (db : DB) (ci : CartItem) : Option OrderErr :=
  match ci.product with
  | none => some .productMissing
  | some p =>
    if p.is_deleted then some (.productRemoved p.product_name)
    else if ci.quantity ≤ 0 then some (.nonpositiveQuantity p.product_name)
    else
      match ci.activity with
      | none => none
      | some a => validate_activity now db a p

/-- The `validate_cart_items` (order_services.py lines 32–63). -/
def validate_cart_items (now : Int) (db : DB) (cart : List CartItem) :
    Option OrderErr :=
  if cart.isEmpty then some .emptyCart
  else firstSome (validateItem now db) cart

/-- Availability check for the relations of one cart line
(the inner loop of `check_inventory_availability`): a relation whose batch
is null is skipped. -/
def checkRels (db : DB) (p : Product) (qty : Int) :
    List ProductItemRelation → Option OrderErr
  | [] => none
  | rel :: rest =>
    match rel.batchId.bind (getBatch db) with
    | none => checkRels db p qty rest
    | some b =>
      let needed := pyint (ratMul rel.quantity (Rat.ofInt qty))
      if b.available_stock < needed then some (.insufficient p.product_name)
      else checkRels db p qty rest

/-- Availability check for one cart line. -/
def checkItem (db : DB) (ci : CartItem) : Option OrderErr :=
  match ci.product with
  | none => some .productMissing
  | some p =>
    let rels := relationsOf db p.id
    if rels.isEmpty then some (.noStockRelation p.product_name)
    else checkRels db p ci.quantity rels

/-- The `check_inventory_availability` (order_services.py lines 129–156):
advisory, lock-free check that every needed batch still has enough
`available_stock`. -/
def check_inventory_availability (db : DB) (cart : List CartItem) :
    Option OrderErr :=
  firstSome (checkItem db) cart

/-- The `"|".join` / `",".join`. -/
def joinSep (sep : String) : List String → String
  | [] => ""
  | [s] => s
  | s :: rest => s ++ sep ++ joinSep sep rest

/-- Insertion into a lexicographically sorted list (Python `list.sort()` on
the `"pid:qty"` strings of `calculate_cart_hash`). -/
def insertSorted (s : String) : List String → List String
  | [] => [s]
  | t :: ts => if s ≤ t then s :: t :: ts else t :: insertSorted s ts

/-- Python `sorted` on strings. -/
def pySort (l : List String) : List String := l.foldr insertSorted []

/-- The `calculate_cart_hash` (order_services.py lines 119–127).  Python's
`hash` of the joined string is modelled by the joined string itself (an
injective stand-in).  A null `cart_item.product` would raise before the
lock is taken in the source; it contributes an empty id here. -/
def calculate_cart_hash (cart : List CartItem) : String :=
  joinSep "|" (pySort (cart.map (fun ci =>
    (match ci.product with
     | some p => toString p.id
     | none => "") ++ ":" ++ toString ci.quantity)))

/-- The duplication-lock key `order_duplication_lock:{user_id}:{cart_hash}`. -/
def dupLockKey (userId : Nat) (cart : List CartItem) : String :=
  "order_duplication_lock:" ++ toString userId ++ ":" ++ calculate_cart_hash cart

/-- The per-batch lock key `batch_lock:{batch_id}`. -/
def batchLockKey (bid : Nat) : String := "batch_lock:" ++ toString bid

/-- Insert-or-accumulate on an association list, preserving insertion
order — the embedding of the Python dict update
`batch_quantities[batch.id] += needed` / `= needed`. -/
def addQty : List (Nat × Int) → Nat → Int → List (Nat × Int)
  | [], k, q => [(k, q)]
  | (k0, q0) :: rest, k, q =>
    if k0 = k then (k0, q0 + q) :: rest else (k0, q0) :: addQty rest k q

/-- First-occurrence deduplication with an accumulator of already-seen
keys: the key order a Python dict assumes under repeated
insert-or-update. -/
def dedupFirstAux (seen : List Nat) : List Nat → List Nat
  | [] => []
  | k :: rest =>
    if k ∈ seen then dedupFirstAux seen rest
    else k :: dedupFirstAux (k :: seen) rest

/-- First-occurrence order of a key list. -/
def dedupFirst (l : List Nat) : List Nat := dedupFirstAux [] l

/-- The flat enumeration of `(batch id, needed quantity)` demands produced
by scanning every cart line's component relations in order, skipping null
batches (first step of the lock phase, order_services.py lines 196–218). -/
def enumNeeds (db : DB) (cart : List CartItem) : List (Nat × Int) :=
  (cart.map (fun ci =>
    match ci.product with
    | none => []
    | some p =>
      (relationsOf db p.id).filterMap (fun rel =>
        match rel.batchId.bind (getBatch db) with
        | none => none
        | some b =>
          some (b.id, pyint (ratMul rel.quantity (Rat.ofInt ci.quantity)))))).flatten

/-- The `batch_quantities` dict: per-batch totals in insertion order. -/
def batch_quantities (db : DB) (cart : List CartItem) : List (Nat × Int) :=
  (enumNeeds db cart).foldl (fun acc kq => addQty acc kq.1 kq.2) []

/-- The lock-acquisition loop (order_services.py lines 220–239).  Returns
`(all_locks_acquired, acquired keys in order, redis state, attempted batch
ids in order)`.  On failure the acquired keys are still set — the caller
deletes them. -/
def acquireBatchLocks (redis : List String) :
    List (Nat × Int) → Bool × List String × List String × List Nat
  | [] => (true, [], redis, [])
  | (bid, _) :: rest =>
    let key := batchLockKey bid
    if redis.contains key then (false, [], redis, [bid])
    else
      let r := acquireBatchLocks (key :: redis) rest
      (r.1, key :: r.2.1, r.2.2.1, bid :: r.2.2.2)

/-- Delete a set of keys from the key-value store. -/
def removeKeys (redis : List String) (keys : List String) : List String :=
  keys.foldl (fun r k => r.erase k) redis

/-- The reservation mutation of the transactional loop
(order_services.py lines 318–320): `batch.reserved_stock += needed;
batch.save()`. -/
def reserveBatch (today : Int) (b : Batch) (needed : Int) : Batch :=
  Batch.save today { b with reserved_stock := b.reserved_stock + needed }

/-- The release mutation of `cancel_order` (lines 452–456) and of
`cleanup_expired_reservations` (lines 496–500): subtract, clamp at zero,
save. -/
def releaseBatch (today : Int) (b : Batch) (qty : Int) : Batch :=
  Batch.save today { b with reserved_stock := clampAtZero (b.reserved_stock - qty) }

/-- The reserve-class audit entry written by the transactional loop. -/
def reserveLogEntry (orderId : Nat) (orderNumber : String) (b : Batch)
    (needed : Int) : OrderInventoryLog :=
  { orderId := orderId, batchId := b.id, operation := "reserve",
    quantity := needed, operatorId := none,
    note := "為訂單 " ++ orderNumber ++ " 預留批號 " ++ b.batch_number ++ " 庫存" }

/-- The per-relation reservation loop of the transaction
(order_services.py lines 305–339): for every component relation of the
product — null batches silently skipped — re-check availability, bump
`reserved_stock`, persist the batch, insert the `InventoryReservation` row
and the reserve log entry. -/
def reserveRelations (today deadline : Int) (orderId : Nat)
    (orderNumber : String) (p : Product) (qty : Int) :
    List ProductItemRelation → DB → Except OrderErr DB
  | [], db => .ok db
  | rel :: rest, db =>
    match rel.batchId.bind (getBatch db) with
    | none => reserveRelations today deadline orderId orderNumber p qty rest db
    | some b =>
      let needed := pyint (ratMul rel.quantity (Rat.ofInt qty))
      if b.available_stock < needed then
        .error (.insufficientBatch p.product_name b.batch_number)
      else
        let b' := reserveBatch today b needed
        let db := updateBatch db b'
        let resv : InventoryReservation :=
          { id := db.reservations.length, orderId := orderId,
            batchId := b.id, itemId := rel.itemId, quantity := needed,
            is_confirmed := false, expires_at := some deadline }
        let db := { db with reservations := db.reservations ++ [resv] }
        let db := addLog db (reserveLogEntry orderId orderNumber b needed)
        reserveRelations today deadline orderId orderNumber p qty rest db

/-- The per-cart-line body of the transaction (order_services.py lines
268–339): price lookup, `OrderItem` insertion, then the reservation loop;
returns the updated store and the running total. -/
def processCartItems (today deadline : Int) (orderId : Nat)
    (orderNumber : String) :
    List CartItem → DB → ℚ → Except OrderErr (DB × ℚ)
  | [], db, total => .ok (db, total)
  | ci :: rest, db, total =>
    match ci.product with
    | none => .error .productMissing
    | some p =>
      let base := match p.default_price with
        | some pr => pr
        | none => 0
      let unit_price := match ci.activity with
        | some a =>
          match getActivityProduct db a.id p.id with
          | some ap => ap.price
          | none => base
        | none => base
      let item_total := ratMul unit_price (Rat.ofInt ci.quantity)
      let db := { db with order_items := db.order_items ++
        [{ orderId := orderId, productId := p.id,
           activityId := ci.activity.map (fun a => a.id),
           quantity := ci.quantity, unit_price := unit_price,
           total_price := item_total, is_gift := false }] }
      match reserveRelations today deadline orderId orderNumber p ci.quantity
          (relationsOf db p.id) db with
      | .error e => .error e
      | .ok db =>
        processCartItems today deadline orderId orderNumber rest db
          (ratAdd total item_total)

/-- The body of `with transaction.atomic()` (order_services.py lines
248–353): double-check availability, create the `Order` row, run the
per-line loop, then set the totals.  An `.error` result models a rolled
back transaction — the caller discards the state. -/
def orderTransaction (today deadline : Int) (orderNumber : String)
    (userId : Nat) (cart : List CartItem) (shipping : ShippingInfo)
    (lockKeys : List String) (db : DB) : Except OrderErr (Order × DB) :=
  match check_inventory_availability db cart with
  | some e => .error e
  | none =>
    let order : Order :=
      { id := db.orders.length, order_number := orderNumber, userId := userId,
        status := "pending_payment", payment_deadline := deadline,
        lock_key := joinSep "," lockKeys,
        receiver_name := shipping.name, receiver_phone := shipping.phone,
        receiver_address := shipping.address, shipping_notes := shipping.notes,
        total_amount := 0, final_amount := 0, paid_at := none,
        cancelled_at := none, payment_method := none, order_notes := none }
    let db := { db with orders := db.orders ++ [order] }
    match processCartItems today deadline order.id orderNumber cart db 0 with
    | .error e => .error e
    | .ok (db, total) =>
      let order := { order with total_amount := total, final_amount := total }
      .ok (order, updateOrder db order)

/-- The outcome of `create_order_with_inventory_reservation`:
the `(order, error)` pair, the stores, and the sequence of batch ids whose
locks were attempted against the key-value store, in attempt order. -/
structure CreateResult where
  result : Except OrderErr Order
  db : DB
  redis : List String
  batchLockAttempts : List Nat
deriving Repr

/-- The `create_order_with_inventory_reservation` (order_services.py lines
158–371).  Faithful points worth noting: the duplication lock is released
on success and on exception paths, but *not* on the lock-contention early
return (line 245 returns without running any `except` handler); the batch
locks acquired so far are always deleted on failure. -/
def create_order_with_inventory_reservation (now today : Int)
    (cfg : OrderConfig) (orderNumber : String) (userId : Nat)
    (cart : List CartItem) (shipping : ShippingInfo) (db : DB)
    (redis : List String) : CreateResult :=
  let dupKey := dupLockKey userId cart
  if redis.contains dupKey then
    { result := .error .duplication, db := db, redis := redis,
      batchLockAttempts := [] }
  else
    let redis1 := dupKey :: redis
    match validate_cart_items now db cart with
    | some e =>
      { result := .error e, db := db, redis := redis1.erase dupKey,
        batchLockAttempts := [] }
    | none =>
      match check_inventory_availability db cart with
      | some e =>
        { result := .error e, db := db, redis := redis1.erase dupKey,
          batchLockAttempts := [] }
      | none =>
        let deadline := now + cfg.payment_timeout_minutes
        let bq := batch_quantities db cart
        let acq := acquireBatchLocks redis1 bq
        let allOk := acq.1
        let keys := acq.2.1
        let redis2 := acq.2.2.1
        let attempts := acq.2.2.2
        if allOk then
          match orderTransaction today deadline orderNumber userId cart
              shipping keys db with
          | .ok od =>
            { result := .ok od.1, db := od.2,
              redis := (removeKeys redis2 keys).erase dupKey,
              batchLockAttempts := attempts }
          | .error e =>
            { result := .error e, db := db,
              redis := (removeKeys redis2 keys).erase dupKey,
              batchLockAttempts := attempts }
        else
          { result := .error .contention, db := db,
            redis := removeKeys redis2 keys,
            batchLockAttempts := attempts }

/-- The batch number used in a log note, looked up from the store
(`reservation.batch.batch_number`). -/
def batchNumberOf (db : DB) (bid : Nat) : String :=
  match getBatch db bid with
  | some b => b.batch_number
  | none => ""

/-- The confirm-class audit entry written by `confirm_order_payment`. -/
def confirmLogEntry (db : DB) (o : Order) (r : InventoryReservation) :
    OrderInventoryLog :=
  { orderId := o.id, batchId := r.batchId, operation := "confirm",
    quantity := r.quantity, operatorId := none,
    note := "確認訂單 " ++ o.order_number ++ " 付款，正式扣除批號 " ++
      batchNumberOf db r.batchId ++ " 庫存" }

/-- The `confirm_order_payment` (order_services.py lines 373–419): status and
deadline guards, then mark the order paid and every reservation of the
order confirmed, appending one confirm log entry per reservation.  The
per-row loop is written as its net effect: a map over the reservation
table plus the appended log entries.  Batches are never touched. -/
def confirm_order_payment (now : Int) (db : DB) (orderId : Nat)
    (paymentMethod : Option String) : (Bool × String) × DB :=
  match getOrder db orderId with
  | none => ((false, "訂單不存在"), db)
  | some o =>
    if o.status ≠ "pending_payment" then
      ((false, "訂單狀態不正確，無法確認付款"), db)
    else if o.payment_deadline < now then
      ((false, "訂單已超過付款期限"), db)
    else
      let pm := match paymentMethod with
        | some m => some m
        | none => o.payment_method
      let o1 := { o with status := "paid", paid_at := some now,
                         payment_method := pm }
      let db1 := updateOrder db o1
      let mine := db1.reservations.filter (fun r => decide (r.orderId = orderId))
      let db2 := { db1 with
        reservations := db1.reservations.map (fun r =>
          if r.orderId = orderId then { r with is_confirmed := true } else r),
        logs := db1.logs ++ mine.map (fun r => confirmLogEntry db1 o1 r) }
      ((true, "訂單付款確認成功"), db2)

/-- The release-class audit entry written by `cancel_order`. -/
def cancelLogEntry (o : Order) (b : Batch) (r : InventoryReservation)
    (reason : Option String) (userId : Option Nat) : OrderInventoryLog :=
  { orderId := o.id, batchId := b.id, operation := "release",
    quantity := r.quantity, operatorId := userId,
    note := "取消訂單 " ++ o.order_number ++ "，釋放批號 " ++ b.batch_number ++
      " 預留庫存。原因: " ++ (match reason with
        | some s => s
        | none => "未指定") }

/-- One iteration of `cancel_order`'s release loop (lines 449–466):
decrement the batch's `reserved_stock` by the reservation quantity,
clamped at zero, persist, and append the release log entry. -/
def releaseForCancel (today : Int) (o : Order) (reason : Option String)
    (userId : Option Nat) (db : DB) (r : InventoryReservation) : DB :=
  match getBatch db r.batchId with
  | none => db
  | some b =>
    let b' := releaseBatch today b r.quantity
    let db := updateBatch db b'
    addLog db (cancelLogEntry o b r reason userId)

/-- The `order_notes` update of `cancel_order` (lines 437–440). -/
def cancelNotes (notes : Option String) (reason : String) : String :=
  let current := match notes with
    | some s => s
    | none => ""
  if current ≠ "" then current ++ "\n取消原因: " ++ reason
  else "取消原因: " ++ reason

/-- The `cancel_order` (order_services.py lines 421–479): guard the status,
mark the order cancelled, then release every *unconfirmed* reservation of
the order (confirmed ones are left untouched). -/
def cancel_order (now today : Int) (db : DB) (orderId : Nat)
    (reason : Option String) (userId : Option Nat) : (Bool × String) × DB :=
  match getOrder db orderId with
  | none => ((false, "訂單不存在"), db)
  | some o =>
    if o.status ≠ "pending_payment" ∧ o.status ≠ "paid" then
      ((false, "訂單狀態不可取消"), db)
    else
      let notes1 := match reason with
        | some s => some (cancelNotes o.order_notes s)
        | none => o.order_notes
      let o1 := { o with status := "cancelled", cancelled_at := some now,
                         order_notes := notes1 }
      let db1 := updateOrder db o1
      let mine := db1.reservations.filter (fun r =>
        decide (r.orderId = orderId) && !r.is_confirmed)
      let db2 := mine.foldl (releaseForCancel today o1 reason userId) db1
      ((true, "訂單取消成功"), db2)

/-- The selection criterion of the expiry sweep:
`expires_at < now` and `is_confirmed = false` (a null `expires_at` never
matches the `__lt` filter). -/
def isExpiredUnconfirmed (now : Int) (r : InventoryReservation) : Bool :=
  (match r.expires_at with
   | some t => decide (t < now)
   | none => false) && !r.is_confirmed

/-- The expire-class audit entry written by the sweep. -/
def expireLogEntry (o : Order) (b : Batch) (r : InventoryReservation) :
    OrderInventoryLog :=
  { orderId := o.id, batchId := b.id, operation := "expire",
    quantity := r.quantity, operatorId := none,
    note := "訂單 " ++ o.order_number ++ " 付款超時，自動釋放批號 " ++
      b.batch_number ++ " 預留庫存" }

/-- One iteration of the sweep loop (order_services.py lines 492–514):
release the batch (clamped at zero), append the expire log entry, and flip
a still-`pending_payment` order to `expired`. -/
def processExpired (today : Int) (db : DB) (r : InventoryReservation) : DB :=
  match getBatch db r.batchId, getOrder db r.orderId with
  | some b, some o =>
    let b' := releaseBatch today b r.quantity
    let db := updateBatch db b'
    let db := addLog db (expireLogEntry o b r)
    if o.status = "pending_payment" then
      updateOrder db { o with status := "expired" }
    else db
  | _, _ => db

/-- The sweep loop.  `failsOn` is an abstract failure oracle: `failsOn r.id
= true` models an exception raised while processing that reservation (for
example a database error).  The source wraps neither the loop body nor the
whole loop in a transaction or a `try`, so an exception propagates out of
`cleanup_expired_reservations` immediately: already-processed reservations
stay committed (`.error` carries the store as committed so far) and the
final bulk delete is never reached. -/
def sweepGo (today : Int) (failsOn : Nat → Bool) :
    List InventoryReservation → DB → Except DB DB
  | [], db => .ok db
  | r :: rest, db =>
    if failsOn r.id then .error db
    else sweepGo today failsOn rest (processExpired today db r)

/-- The database state an observer sees once `cleanup_expired_reservations`
returns or raises: the committed store in either case (there is no
enclosing transaction to roll back). -/
def sweepOut : Except DB DB → DB
  | .ok db => db
  | .error db => db

/-- The `cleanup_expired_reservations` (order_services.py lines 482–519):
select the expired unconfirmed reservations, process each in turn, then
bulk-delete the selected rows (the queryset is re-evaluated at delete
time, against the same unchanged criteria). -/
def cleanup_expired_reservations (now today : Int) (failsOn : Nat → Bool)
    (db : DB) : Except DB DB :=
  match sweepGo today failsOn (db.reservations.filter (isExpiredUnconfirmed now)) db with
  | .error db' => .error db'
  | .ok db' =>
    .ok { db' with reservations :=
      db'.reservations.filter (fun r => !isExpiredUnconfirmed now r) }

/-- The cap contributed by each component relation in
`ActivityProduct.calculate_available_stock` (promotion.py lines 97–111),
with the source's early `return 0` on a null batch modelled as `none`:
relations with `quantity <= 0` are skipped, a null batch aborts with 0,
and a batch only contributes `batch.quantity // relation.quantity` when
`batch.quantity > 0` — otherwise it is skipped too. -/
def componentCaps (db : DB) : List ProductItemRelation → Option (List Int)
  | [] => some []
  | rel :: rest =>
    if rel.quantity ≤ 0 then componentCaps db rest
    else
      match rel.batchId.bind (getBatch db) with
      | none => none
      | some b =>
        if 0 < b.quantity then
          (componentCaps db rest).map
            (fun caps => pyFloorDiv b.quantity rel.quantity :: caps)
        else componentCaps db rest

/-- The `ActivityProduct.calculate_available_stock` (promotion.py lines
76–116): 0 with no component relations, else the minimum of the collected
per-component caps (0 if none were collected, 0 on a null batch). -/
def calculate_available_stock (db : DB) (productId : Nat) : Int :=
  let rels := relationsOf db productId
  if rels.isEmpty then 0
  else
    match componentCaps db rels with
    | none => 0
    | some [] => 0
    | some (c :: cs) => cs.foldl min c

/-- The derived-stock formula in the spec's words (spec §3
"ActivityProduct / derived stock" and §8): the minimum over all component
relations with `quantity > 0` of `floor(batch.total_quantity /
relation.quantity)`; 0 with no relations, 0 when any such relation's batch
is null, 0 when no relation has `quantity > 0`.  Kept separate from the
source translation `calculate_available_stock` so the two can be
compared. -/
def specAvailableStock (db : DB) (productId : Nat) : Int :=
  let rels := relationsOf db productId
  if rels.isEmpty then 0
  else if rels.any (fun rel =>
      decide (0 < rel.quantity) && (rel.batchId.bind (getBatch db)).isNone) then 0
  else
    match rels.filterMap (fun rel =>
        if 0 < rel.quantity then
          (rel.batchId.bind (getBatch db)).map
            (fun b => Int.floor ((b.quantity : ℚ) / rel.quantity))
        else none) with
    | [] => 0
    | c :: cs => cs.foldl min c

/-- The amended derived-stock formula (the spec formula corrected for what
the source actually computes): components whose batch has
`total_quantity <= 0` are also non-limiting and are skipped, exactly like
components with `quantity <= 0`. -/
def specAvailableStockAmended (db : DB) (productId : Nat) : Int :=
  let rels := relationsOf db productId
  if rels.isEmpty then 0
  else if rels.any (fun rel =>
      decide (0 < rel.quantity) && (rel.batchId.bind (getBatch db)).isNone) then 0
  else
    match rels.filterMap (fun rel =>
        if 0 < rel.quantity then
          (rel.batchId.bind (getBatch db)).bind
            (fun b => if 0 < b.quantity then
              some (Int.floor ((b.quantity : ℚ) / rel.quantity))
            else none)
        else none) with
    | [] => 0
    | c :: cs => cs.foldl min c

/-!
Interleaving model for concurrent checkout attempts.

`create_order_with_inventory_reservation` decomposes into two blocks that
act on shared state: the pre-transaction block (duplication lock,
validation, advisory availability check, batch-lock acquisition — reads of
the store plus key-value writes) and the transactional block (the atomic
`transaction.atomic()` body plus the lock releases).  The model below runs
`N` attempts, each advancing through those two blocks as atomic steps, in
an arbitrary interleaving chosen by a schedule of process indices.  Both
steps reuse the very same functions as the sequential embedding above.
-/

/-- One checkout attempt: the arguments one worker passes to
`create_order_with_inventory_reservation`. -/
structure Attempt where
  userId : Nat
  orderNumber : String
  cart : List CartItem
  shipping : ShippingInfo
deriving Repr

/-- Progress of one attempt: not yet started, holding its batch locks, or
finished (successfully or not). -/
inductive AttemptPhase
  | ready
  | locked (keys : List String)
  | finished (success : Bool)
deriving DecidableEq, Repr

/-- The shared state: the relational store, the key-value store, and every
attempt with its phase. -/
structure Sys where
  db : DB
  redis : List String
  procs : List (Attempt × AttemptPhase)
deriving Repr

/-- The pre-transaction block of one attempt (order_services.py lines
164–245): duplication lock, cart validation, advisory availability check,
batch-lock acquisition.  Touches only the key-value store.  On contention
the acquired batch locks are deleted (the duplication lock is not — as in
the source). -/
def attemptReady (now : Int) (att : Attempt) (db : DB)
    (redis : List String) : AttemptPhase × List String :=
  let dupKey := dupLockKey att.userId att.cart
  if redis.contains dupKey then (.finished false, redis)
  else
    let redis1 := dupKey :: redis
    match validate_cart_items now db att.cart with
    | some _ => (.finished false, redis1.erase dupKey)
    | none =>
      match check_inventory_availability db att.cart with
      | some _ => (.finished false, redis1.erase dupKey)
      | none =>
        let bq := batch_quantities db att.cart
        let acq := acquireBatchLocks redis1 bq
        if acq.1 then (.locked acq.2.1, acq.2.2.1)
        else (.finished false, removeKeys acq.2.2.1 acq.2.1)

/-- The transactional block of one attempt (order_services.py lines
248–360): run the atomic transaction against the current store, then
release the batch locks and the duplication lock. -/
def attemptLocked (now today : Int) (cfg : OrderConfig) (att : Attempt)
    (keys : List String) (db : DB) (redis : List String) :
    AttemptPhase × DB × List String :=
  let deadline := now + cfg.payment_timeout_minutes
  let dupKey := dupLockKey att.userId att.cart
  match orderTransaction today deadline att.orderNumber att.userId att.cart
      att.shipping keys db with
  | .ok od => (.finished true, od.2, (removeKeys redis keys).erase dupKey)
  | .error _ => (.finished false, db, (removeKeys redis keys).erase dupKey)

/-- Advance attempt `i` by one atomic block. -/
def sysStep (now today : Int) (cfg : OrderConfig) (s : Sys) (i : Nat) : Sys :=
  match s.procs[i]? with
  | none => s
  | some (att, .ready) =>
    let r := attemptReady now att s.db s.redis
    { s with redis := r.2, procs := s.procs.set i (att, r.1) }
  | some (att, .locked keys) =>
    let r := attemptLocked now today cfg att keys s.db s.redis
    { db := r.2.1, redis := r.2.2, procs := s.procs.set i (att, r.1) }
  | some (_, .finished _) => s

/-- Run a schedule (an arbitrary interleaving of attempt steps). -/
def sysRun (now today : Int) (cfg : OrderConfig) (s : Sys)
    (sched : List Nat) : Sys :=
  sched.foldl (sysStep now today cfg) s

/-- Number of attempts that finished with a created order. -/
def successCount (s : Sys) : Nat :=
  (s.procs.filter (fun p =>
    match p.2 with
    | .finished true => true
    | _ => false)).length

/-!
Concrete scenarios.

Closed worlds on which the claims are evaluated.  They reuse the data model
above; an empty table is simply `[]`.
-/

/-- A fresh batch: all stock in normal stock, nothing reserved, no
expiry. -/
def freshBatch (bid : Nat) (number : String) (q : Int) : Batch :=
  { id := bid, itemId := some 1, batch_number := number, warehouse := "主倉",
    quantity := q, active_stock := 0, stock := q, reserved_stock := 0,
    box_count := 0, expiry_date := none, days_to_expiry := none,
    state := "active" }

def stdConfig : OrderConfig :=
  { payment_timeout_minutes := 30, inventory_lock_seconds := 180 }

def emptyShipping : ShippingInfo :=
  { name := "", phone := "", address := "", notes := "" }

/-- Scenario of claim C1: `total_quantity = 100`, everything in normal
stock, one component relation consuming 2 units per sale-unit. -/
def c1product : Product :=
  { id := 1, product_name := "蝦仁", is_deleted := false,
    default_price := some 50 }

def c1rel : ProductItemRelation :=
  { productId := 1, itemId := 1, batchId := some 1, quantity := 2 }

def c1db : DB :=
  { activity_products := [], relations := [c1rel],
    batches := [freshBatch 1 "B100" 100], orders := [], order_items := [],
    reservations := [], logs := [] }

def c1cart : List CartItem :=
  [{ product := some c1product, activity := none, quantity := 10 }]

/-- The C1 order run: quantity 10 against the 100-unit batch. -/
def c1run : CreateResult :=
  create_order_with_inventory_reservation 0 0 stdConfig "ORD-C1" 7 c1cart
    emptyShipping c1db []

/-- Scenario of claim C2: one component on a 10-unit batch and one on a
0-unit batch, both with relation quantity 1. -/
def c2db : DB :=
  { activity_products := [],
    relations :=
      [{ productId := 1, itemId := 1, batchId := some 5, quantity := 1 },
       { productId := 1, itemId := 2, batchId := some 6, quantity := 1 }],
    batches := [freshBatch 5 "B5" 10, freshBatch 6 "B6" 0], orders := [],
    order_items := [], reservations := [], logs := [] }

/-- Scenario of claim C3's reserve clause: a component relation with a
negative quantity (`FloatField` imposes no sign constraint), cart
quantity 1. -/
def c3relNeg : ProductItemRelation :=
  { productId := 1, itemId := 1, batchId := some 1, quantity := -1 }

def c3db : DB :=
  { activity_products := [], relations := [c3relNeg],
    batches := [freshBatch 1 "B3" 10], orders := [], order_items := [],
    reservations := [], logs := [] }

def c3cart : List CartItem :=
  [{ product := some c1product, activity := none, quantity := 1 }]

def c3run : CreateResult :=
  create_order_with_inventory_reservation 0 0 stdConfig "ORD-C3" 7 c3cart
    emptyShipping c3db []

/-- Scenario of claim C4: the product's component relations reference
batch 5 first and batch 3 second, so the enumeration meets the higher id
first. -/
def c4db : DB :=
  { activity_products := [],
    relations :=
      [{ productId := 1, itemId := 1, batchId := some 5, quantity := 1 },
       { productId := 1, itemId := 2, batchId := some 3, quantity := 1 }],
    batches := [freshBatch 5 "B5" 50, freshBatch 3 "B3" 50], orders := [],
    order_items := [], reservations := [], logs := [] }

def c4cart : List CartItem :=
  [{ product := some c1product, activity := none, quantity := 1 }]

def c4run : CreateResult :=
  create_order_with_inventory_reservation 0 0 stdConfig "ORD-C4" 7 c4cart
    emptyShipping c4db []

/-- Scenario of claim C5: a `pending_payment` order with deadline 100 and
one reservation, over a batch with 20 units reserved. -/
def c5order : Order :=
  { id := 1, order_number := "ORD-C5", userId := 7,
    status := "pending_payment", payment_deadline := 100, lock_key := "",
    receiver_name := "", receiver_phone := "", receiver_address := "",
    shipping_notes := "", total_amount := 0, final_amount := 0,
    paid_at := none, cancelled_at := none, payment_method := none,
    order_notes := none }

def c5batch : Batch :=
  { freshBatch 1 "B5700" 100 with stock := 80, reserved_stock := 20 }

def c5resv : InventoryReservation :=
  { id := 0, orderId := 1, batchId := 1, itemId := 1, quantity := 20,
    is_confirmed := false, expires_at := some 100 }

def c5db : DB :=
  { activity_products := [], relations := [], batches := [c5batch],
    orders := [c5order], order_items := [], reservations := [c5resv],
    logs := [] }

/-- Scenario of claim C6: any starting batch with nonnegative
`reserved_stock`. -/
def c6batch : Batch :=
  { freshBatch 1 "B6600" 100 with stock := 97, reserved_stock := 3 }

/-- Scenario of claim C7: two expired unconfirmed reservations; an
exception is injected while the first is processed. -/
def c7orderA : Order := { c5order with id := 1, order_number := "ORD-C7A" }

def c7orderB : Order := { c5order with id := 2, order_number := "ORD-C7B" }

def c7resvA : InventoryReservation :=
  { id := 1, orderId := 1, batchId := 1, itemId := 1, quantity := 5,
    is_confirmed := false, expires_at := some 10 }

def c7resvB : InventoryReservation :=
  { id := 2, orderId := 2, batchId := 2, itemId := 1, quantity := 7,
    is_confirmed := false, expires_at := some 10 }

def c7db : DB :=
  { activity_products := [], relations := [],
    batches :=
      [{ freshBatch 1 "B71" 100 with stock := 95, reserved_stock := 5 },
       { freshBatch 2 "B72" 100 with stock := 93, reserved_stock := 7 }],
    orders := [c7orderA, c7orderB], order_items := [],
    reservations := [c7resvA, c7resvB], logs := [] }

/-- The C7 sweep run at `now = 20`, with the injected failure on
reservation 1. -/
def c7run : Except DB DB :=
  cleanup_expired_reservations 20 0 (fun rid => decide (rid = 1)) c7db

/-- Scenario of claim C8, anomalous run: the order's single unconfirmed
reservation holds 10 units but the batch only has 5 reserved. -/
def c8resv : InventoryReservation :=
  { id := 0, orderId := 1, batchId := 1, itemId := 1, quantity := 10,
    is_confirmed := false, expires_at := some 100 }

def c8dbClamped : DB :=
  { activity_products := [], relations := [],
    batches := [{ freshBatch 1 "B8" 100 with stock := 95, reserved_stock := 5 }],
    orders := [{ c5order with order_number := "ORD-C8" }], order_items := [],
    reservations := [c8resv], logs := [] }

/-- Scenario of claim C8, normal run: identical but the batch really has
the full 10 units reserved. -/
def c8dbNormal : DB :=
  { c8dbClamped with
    batches := [{ freshBatch 1 "B8" 100 with stock := 90, reserved_stock := 10 }] }

def c8runClamped : (Bool × String) × DB :=
  cancel_order 50 0 c8dbClamped 1 (some "不想要了") (some 9)

def c8runNormal : (Bool × String) × DB :=
  cancel_order 50 0 c8dbNormal 1 (some "不想要了") (some 9)

/-- Scenario of claim C8 on the expiry path, anomalous run: one expired
unconfirmed reservation of 10 units against a batch with only 5
reserved. -/
def c8swResv : InventoryReservation :=
  { id := 0, orderId := 1, batchId := 1, itemId := 1, quantity := 10,
    is_confirmed := false, expires_at := some 40 }

def c8swOrder : Order := { c5order with order_number := "ORD-C8S" }

def c8swClamped : DB :=
  { activity_products := [], relations := [],
    batches := [{ freshBatch 1 "B8S" 100 with stock := 95, reserved_stock := 5 }],
    orders := [c8swOrder], order_items := [],
    reservations := [c8swResv], logs := [] }

/-- Scenario of claim C8 on the expiry path, normal run: identical but
with the full 10 units really reserved. -/
def c8swNormal : DB :=
  { c8swClamped with
    batches := [{ freshBatch 1 "B8S" 100 with stock := 90, reserved_stock := 10 }] }

def c8swRunClamped : Except DB DB :=
  cleanup_expired_reservations 50 0 (fun _ => false) c8swClamped

def c8swRunNormal : Except DB DB :=
  cleanup_expired_reservations 50 0 (fun _ => false) c8swNormal

/-- Scenario of claims C9: a single fresh batch of `K` units, one product
consuming one unit of it per sale-unit, and `N` one-unit checkout
attempts by distinct users. -/
def c9product : Product :=
  { id := 1, product_name := "白蝦", is_deleted := false,
    default_price := some 100 }

def c9rel : ProductItemRelation :=
  { productId := 1, itemId := 1, batchId := some 1, quantity := 1 }

/-- The C9 batch after `r` one-unit reservations have been committed
(each commit runs `Batch.save`, which rebalances normal stock to
`K - r`). -/
def c9batch (K r : Int) : Batch :=
  { id := 1, itemId := some 1, batch_number := "B9", warehouse := "主倉",
    quantity := K, active_stock := 0, stock := K - r, reserved_stock := r,
    box_count := 0, expiry_date := none, days_to_expiry := none,
    state := "active" }

def c9cart : List CartItem :=
  [{ product := some c9product, activity := none, quantity := 1 }]

def c9db (K : Int) : DB :=
  { activity_products := [], relations := [c9rel],
    batches := [c9batch K 0], orders := [], order_items := [],
    reservations := [], logs := [] }

def c9sys (K : Int) (N : Nat) : Sys :=
  { db := c9db K, redis := [],
    procs := (List.range N).map (fun i =>
      ({ userId := i, orderNumber := "ORD-C9", cart := c9cart,
         shipping := emptyShipping }, .ready)) }

/-- Scenario of claim C10: product 1 has a null-batch component besides a
well-stocked one; product 2's only component has a null batch; product 3
has no component relations at all. -/
def c10productNullPlus : Product :=
  { id := 1, product_name := "綜合組", is_deleted := false,
    default_price := some 10 }

def c10productNullOnly : Product :=
  { id := 2, product_name := "單品A", is_deleted := false,
    default_price := some 10 }

def c10productNoRel : Product :=
  { id := 3, product_name := "單品B", is_deleted := false,
    default_price := some 10 }

def c10db : DB :=
  { activity_products := [],
    relations :=
      [{ productId := 1, itemId := 1, batchId := none, quantity := 1 },
       { productId := 1, itemId := 2, batchId := some 7, quantity := 1 },
       { productId := 2, itemId := 3, batchId := none, quantity := 1 }],
    batches := [freshBatch 7 "B7" 50], orders := [], order_items := [],
    reservations := [], logs := [] }

def c10runNullPlus : CreateResult :=
  create_order_with_inventory_reservation 0 0 stdConfig "ORD-C10A" 7
    [{ product := some c10productNullPlus, activity := none, quantity := 5 }]
    emptyShipping c10db []

def c10runNullOnly : CreateResult :=
  create_order_with_inventory_reservation 0 0 stdConfig "ORD-C10B" 8
    [{ product := some c10productNullOnly, activity := none, quantity := 2 }]
    emptyShipping c10db []

def c10runNoRel : CreateResult :=
  create_order_with_inventory_reservation 0 0 stdConfig "ORD-C10C" 9
    [{ product := some c10productNoRel, activity := none, quantity := 1 }]
    emptyShipping c10db []

/-!
Bridge lemmas.

The computable rational wrappers agree with the library operations, so the
definitions above really do compute with exact rational arithmetic.
-/

theorem ratMul_eq (a b : ℚ) : ratMul a b = a * b := by
  unfold ratMul
  rw [Rat.mkRat_eq_div]
  push_cast
  rw [← div_mul_div_comm, Rat.num_div_den, Rat.num_div_den]

theorem ratAdd_eq (a b : ℚ) : ratAdd a b = a + b := by
  unfold ratAdd
  rw [Rat.mkRat_eq_div]
  have ha : ((a.den : ℚ)) ≠ 0 := Nat.cast_ne_zero.mpr a.den_nz
  have hb : ((b.den : ℚ)) ≠ 0 := Nat.cast_ne_zero.mpr b.den_nz
  conv_rhs => rw [← Rat.num_div_den a, ← Rat.num_div_den b]
  rw [div_add_div _ _ ha hb]
  push_cast
  ring_nf

theorem pyFloorDiv_eq_floor (a : Int) (q : ℚ) (hq : 0 < q) :
    pyFloorDiv a q = Int.floor ((a : ℚ) / q) := by
  have hnum : 0 < q.num := Rat.num_pos.mpr hq
  have h2 : ((q.num.toNat : ℕ) : ℚ) = (q.num : ℚ) := by
    exact_mod_cast Int.toNat_of_nonneg hnum.le
  have h1 : ((a : ℚ) / q) = ((a * (q.den : Int) : Int) : ℚ) / ((q.num.toNat : ℕ) : ℚ) := by
    conv_lhs => rw [← Rat.num_div_den q]
    rw [div_div_eq_mul_div, h2]
    push_cast
    ring
  rw [h1, Rat.floor_intCast_div_natCast]
  unfold pyFloorDiv
  rw [Int.fdiv_eq_ediv _ hnum.le]
  congr 1
  exact (Int.toNat_of_nonneg hnum.le).symm

theorem pyint_nonneg (q : ℚ) (h : 0 ≤ q) : 0 ≤ pyint q := by
  unfold pyint
  exact Int.tdiv_nonneg (Rat.num_nonneg.mpr h) (by positivity)

/-!
Claims.
-/

/-- Claim C1, counterexample.  In the spec's scenario (batch with
`total_quantity = 100`, all of it in normal stock, nothing reserved;
product consuming 2 units per sale-unit; order for quantity 10) the order
is created and `reserved_stock` does become 20 — but the batch's derived
`available_stock` drops to 60, not to the claimed 80: `Batch.save`
rebalances normal stock down to 80 to keep the identity, and
`available_stock = normal + active - reserved` then subtracts the 20
reserved units a second time. -/
theorem C1_counterexample :
    c1run.result.isOk = true ∧
    (getBatch c1run.db 1).map Batch.reserved_stock = some 20 ∧
    (getBatch c1run.db 1).map Batch.available_stock = some 60 ∧
    ¬ (getBatch c1run.db 1).map Batch.available_stock = some 80 := by
  refine ⟨by decide, by decide, by decide, by decide⟩

/-- Claim C1, amended.  In the scenario of the claim,
`createOrderWithReservation` succeeds and sets the batch's
`reserved_stock` to 20; `Batch.save` recomputes normal stock to 80 to
keep the stock identity, so the derived `available_stock` drops from 100
to exactly 60 (not 80): it equals
`total - 2 * reserved` once the identity has been restored. -/
theorem C1_amended :
    c1run.result.isOk = true ∧
    (getBatch c1run.db 1).map Batch.reserved_stock = some 20 ∧
    (getBatch c1run.db 1).map Batch.stock = some 80 ∧
    (getBatch c1run.db 1).map Batch.available_stock = some 60 ∧
    (getBatch c1db 1).map Batch.available_stock = some 100 := by
  refine ⟨by decide, by decide, by decide, by decide, by decide⟩

/-- Claim C2, counterexample.  A product with two component relations of
quantity 1, one on a batch with `total_quantity = 10` and one on a batch
with `total_quantity = 0`: the spec formula demands
`min(10, 0) = 0`, but `calculate_available_stock` skips the zero-quantity
batch (the `if batch.quantity > 0` guard) and returns 10. -/
theorem C2_counterexample :
    calculate_available_stock c2db 1 = 10 ∧
    specAvailableStock c2db 1 = 0 := by
  constructor
  · decide
  · show specAvailableStock c2db 1 = 0
    simp only [specAvailableStock, relationsOf, c2db, getBatch, freshBatch,
      List.filter, List.find?, List.isEmpty, List.any, List.filterMap,
      Option.bind, Option.isNone, Option.map]
    norm_num

/-- Claim C3, counterexample.  `reserved_stock >= 0` is *not* preserved by
every reserve operation: a component relation with a negative quantity
(the `FloatField` admits it, and the order path has no sign guard, unlike
the derived-stock calculator) makes `needed_quantity` negative; the
availability checks `available_stock < needed` then pass trivially and the
reservation drives `reserved_stock` to −1. -/
theorem C3_counterexample :
    c3run.result.isOk = true ∧
    ∃ b ∈ c3run.db.batches, b.reserved_stock < 0 := by
  refine ⟨by decide, by decide⟩

/-- Claim C4, counterexample.  A cart whose component relations reference
batch 5 before batch 3 attempts the `batch_lock` keys in exactly that
order, `[5, 3]`, which is not ascending: the source iterates the
`batch_quantities` dict in insertion order and never sorts. -/
theorem C4_counterexample :
    c4run.batchLockAttempts = [5, 3] ∧
    ¬ List.Chain' (· < ·) c4run.batchLockAttempts := by
  have h : c4run.batchLockAttempts = [5, 3] := by decide
  refine ⟨h, ?_⟩
  rw [h]
  intro hc
  have h2 := (List.chain'_cons.mp hc).1
  omega

/-- Claim C9, counterexample.  Two attempts, each requesting one unit of a
fresh batch with capacity `K = 2`, run to completion one after the other
(schedule `[0, 0, 1, 1]`, an interleaving of the concurrent system): only
one order is created instead of `min(N, K) = 2`.  The first reservation
rebalances normal stock to 1, so the second attempt sees
`available_stock = 1 + 0 - 1 = 0 < 1` and fails its advisory check. -/
theorem C9_counterexample :
    successCount (sysRun 0 0 stdConfig (c9sys 2 2) [0, 0, 1, 1]) = 1 ∧
    min 2 2 = 2 ∧
    successCount (sysRun 0 0 stdConfig (c9sys 2 2) [0, 0, 1, 1]) ≠ min 2 2 := by
  refine ⟨by decide, by decide, by decide⟩

/-- Claim C10.  In the order path a component relation whose batch is null
is silently skipped: the order for a product with a null-batch component
(plus a stocked one) succeeds and reserves only against the non-null
batch, even though `calculate_available_stock` defines that product's
availability as 0; a product whose *only* component has a null batch even
succeeds with no reservation at all; only a product with no component
relations is rejected outright (with the no-stock-relation error). -/
theorem C10_theorem :
    c10runNullPlus.result.isOk = true ∧
    c10runNullPlus.db.reservations.map (fun r => r.batchId) = [7] ∧
    calculate_available_stock c10db 1 = 0 ∧
    c10runNullOnly.result.isOk = true ∧
    c10runNullOnly.db.reservations = [] ∧
    c10runNoRel.result = .error (.noStockRelation "單品B") := by
  refine ⟨by decide, by decide, by decide, by decide, by decide, by decide⟩

/-- The `Batch.save` never changes `reserved_stock`, `active_stock` or
`quantity` — it only rebalances `stock` (and the expiry bookkeeping). -/
theorem save_fields (today : Int) (b : Batch) :
    (Batch.save today b).reserved_stock = b.reserved_stock ∧
    (Batch.save today b).active_stock = b.active_stock ∧
    (Batch.save today b).quantity = b.quantity ∧
    (Batch.save today b).id = b.id := by
  unfold Batch.save
  cases b.expiry_date <;> dsimp only <;> split <;> simp

/-- After any `Batch.save`, the stock identity
`active + normal + reserved = total` holds. -/
theorem save_identity (today : Int) (b : Batch) :
    (Batch.save today b).active_stock + (Batch.save today b).stock +
      (Batch.save today b).reserved_stock = (Batch.save today b).quantity := by
  unfold Batch.save
  cases b.expiry_date <;> dsimp only <;> split <;> simp_all <;> omega

/-- Claim C6.  Round-trip at the ledger level: the reserve mutation of
`create_order_with_inventory_reservation` (`reserved_stock += n`, then
`Batch.save`) followed by the release mutation of `cancel_order`
(`reserved_stock -= n`, clamped at zero, then `Batch.save`) restores
`reserved_stock` exactly, for every batch whose `reserved_stock` was
nonnegative. -/
theorem C6_roundtrip (today₁ today₂ : Int) (b : Batch) (n : Int)
    (h : 0 ≤ b.reserved_stock) :
    (releaseBatch today₂ (reserveBatch today₁ b n) n).reserved_stock =
      b.reserved_stock := by
  unfold releaseBatch reserveBatch
  rw [(save_fields today₂ _).1]
  have h1 := (save_fields today₁ { b with reserved_stock := b.reserved_stock + n }).1
  rw [h1]
  simp only [clampAtZero]
  split
  · omega
  · omega

/-- Claim C6, witness: a batch with 3 units reserved, reserving then
releasing 7 more. -/
theorem C6_witness :
    0 ≤ c6batch.reserved_stock ∧
    (releaseBatch 1 (reserveBatch 0 c6batch 7) 7).reserved_stock =
      c6batch.reserved_stock :=
  ⟨by decide, C6_roundtrip 0 1 c6batch 7 (by decide)⟩

/-- Claim C7, counterexample.  Two expired unconfirmed reservations; an
exception is injected while the first is processed.  The sweep is *not*
per-reservation isolated: it aborts with the store exactly as it was, so
the second expired reservation is left unprocessed (its batch still
carries the 7 reserved units) and no reservation row is deleted —
refuting both the per-reservation transaction and the claim that an error
on one reservation does not abort the sweep of the remaining ones. -/
theorem C7_counterexample :
    c7run = .error c7db ∧
    c7resvB ∈ c7db.reservations ∧
    isExpiredUnconfirmed 20 c7resvB = true ∧
    (getBatch c7db 2).map Batch.reserved_stock = some 7 := by
  refine ⟨by decide, by decide, by decide, by decide⟩

/-- Claim C8, counterexample.  Cancelling an order — and likewise
sweeping an expired reservation — whose single unconfirmed reservation
holds 10 units while the batch only has 5 reserved clamps
`reserved_stock` to 0 and completes without error; but on both paths the
appended audit-log entries are *identical* to those of the anomaly-free
run that started with the full 10 units reserved, so the clamping anomaly
is not observable via the audit log: nothing distinguished is logged. -/
theorem C8_counterexample :
    c8runClamped.1 = (true, "訂單取消成功") ∧
    (getBatch c8dbClamped 1).map Batch.reserved_stock = some 5 ∧
    (getBatch c8runClamped.2 1).map Batch.reserved_stock = some 0 ∧
    (getBatch c8dbNormal 1).map Batch.reserved_stock = some 10 ∧
    c8dbClamped.logs = c8dbNormal.logs ∧
    c8runClamped.2.logs = c8runNormal.2.logs ∧
    Except.isOk c8swRunClamped = true ∧
    (getBatch c8swClamped 1).map Batch.reserved_stock = some 5 ∧
    (getBatch (sweepOut c8swRunClamped) 1).map Batch.reserved_stock = some 0 ∧
    (getBatch c8swNormal 1).map Batch.reserved_stock = some 10 ∧
    (sweepOut c8swRunClamped).logs = (sweepOut c8swRunNormal).logs := by
  refine ⟨by decide, by decide, by decide, by decide, by decide, by decide,
    by decide, by decide, by decide, by decide, by decide⟩

/-- Updating the row a `find?`-by-key lookup returns makes the same lookup
return the new row. -/
theorem find_update {α : Type} (key : α → Nat) (k : Nat) (x' : α)
    (hk : key x' = k) :
    ∀ (l : List α) (x : α),
      l.find? (fun y => decide (key y = k)) = some x →
      (l.map (fun y => if key y = key x' then x' else y)).find?
        (fun y => decide (key y = k)) = some x'
  | [], x, h => by simp at h
  | a :: t, x, h => by
    by_cases ha : key a = k
    · have h1 : key a = key x' := by rw [ha, hk]
      simp only [List.map_cons, if_pos h1]
      exact List.find?_cons_of_pos _ (by simp [hk])
    · have h2 : ¬ key a = key x' := fun hc => ha (hk ▸ hc)
      rw [List.find?_cons_of_neg _ (by simp [ha])] at h
      simp only [List.map_cons, if_neg h2]
      rw [List.find?_cons_of_neg _ (by simp [ha])]
      exact find_update key k x' hk t x h

/-- The key actually found by a `find?`-by-key lookup is the requested
one. -/
theorem find_key {α : Type} (key : α → Nat) (k : Nat) (l : List α) (x : α)
    (h : l.find? (fun y => decide (key y = k)) = some x) : key x = k := by
  have := List.find?_some h
  simpa using this

/-- The `updateOrder` rewires the looked-up order row. -/
theorem getOrder_update (db : DB) (oid : Nat) (o o' : Order)
    (h : getOrder db oid = some o) (hid : o'.id = oid) :
    getOrder (updateOrder db o') oid = some o' := by
  have hk : o.id = oid := find_key Order.id oid db.orders o h
  unfold getOrder updateOrder at *
  exact find_update Order.id oid o' hid db.orders o h

/-- The `updateBatch` rewires the looked-up batch row. -/
theorem getBatch_update (db : DB) (bid : Nat) (b b' : Batch)
    (h : getBatch db bid = some b) (hid : b'.id = bid) :
    getBatch (updateBatch db b') bid = some b' := by
  unfold getBatch updateBatch at *
  exact find_update Batch.id bid b' hid db.batches b h

/-- Claim C5.  `confirm_order_payment` succeeds exactly when the order is
`pending_payment` and the deadline has not passed; the past-deadline
failure carries the distinguished expired-deadline message, different from
the generic status message; the batch table — in particular every
`reserved_stock` — is untouched on every path; the audit log only grows;
and on success every reservation of the order is confirmed and the order
is `paid` with `paid_at` stamped. -/
theorem C5_theorem (now : Int) (db : DB) (oid : Nat) (pm : Option String)
    (o : Order) (h : getOrder db oid = some o) :
    ((confirm_order_payment now db oid pm).1.1 = true ↔
      (o.status = "pending_payment" ∧ now ≤ o.payment_deadline)) ∧
    (o.status = "pending_payment" → o.payment_deadline < now →
      (confirm_order_payment now db oid pm).1.2 = "訂單已超過付款期限" ∧
      "訂單已超過付款期限" ≠ "訂單狀態不正確，無法確認付款") ∧
    (confirm_order_payment now db oid pm).2.batches = db.batches ∧
    db.logs <+: (confirm_order_payment now db oid pm).2.logs ∧
    ((confirm_order_payment now db oid pm).1.1 = true →
      (∀ r ∈ (confirm_order_payment now db oid pm).2.reservations,
          r.orderId = oid → r.is_confirmed = true) ∧
      ∃ o', getOrder (confirm_order_payment now db oid pm).2 oid = some o' ∧
        o'.status = "paid" ∧ o'.paid_at = some now) := by
  have hid : o.id = oid := find_key Order.id oid db.orders o h
  unfold confirm_order_payment
  rw [h]
  dsimp only
  by_cases hs : o.status = "pending_payment"
  · rw [if_neg (not_not_intro hs)]
    by_cases hd : o.payment_deadline < now
    · rw [if_pos hd]
      refine ⟨?_, ?_, rfl, List.prefix_refl _, ?_⟩
      · exact iff_of_false (by simp) (fun hc => absurd hc.2 (not_le.mpr hd))
      · intro _ _
        exact ⟨rfl, by decide⟩
      · intro hF
        exact absurd hF (by simp)
    · rw [if_neg hd]
      refine ⟨?_, ?_, rfl, ⟨_, rfl⟩, ?_⟩
      · exact iff_of_true rfl ⟨hs, not_lt.mp hd⟩
      · intro _ hd'
        exact absurd hd' hd
      · intro _
        constructor
        · intro r hr hro
          simp only [List.mem_map] at hr
          obtain ⟨r0, _, hr0⟩ := hr
          by_cases hq : r0.orderId = oid
          · rw [if_pos hq] at hr0
            rw [← hr0]
          · rw [if_neg hq] at hr0
            rw [← hr0] at hro
            exact absurd hro hq
        · exact ⟨_, getOrder_update db oid o _ h hid, rfl, rfl⟩
  · rw [if_pos hs]
    refine ⟨?_, ?_, rfl, List.prefix_refl _, ?_⟩
    · exact iff_of_false (by simp) (fun hc => hs hc.1)
    · intro hs' _
      exact absurd hs' hs
    · intro hF
      exact absurd hF (by simp)

/-- Claim C5, witness: the concrete pending order with deadline 100,
confirmed at time 50. -/
theorem C5_witness :
    getOrder c5db 1 = some c5order ∧
    (confirm_order_payment 50 c5db 1 none).2.batches = c5db.batches ∧
    (confirm_order_payment 50 c5db 1 none).1.1 = true := by
  have happ := C5_theorem 50 c5db 1 none c5order (by decide)
  exact ⟨by decide, happ.2.2.1, happ.1.mpr ⟨by decide, by decide⟩⟩

theorem clampAtZero_nonneg (x : Int) : 0 ≤ clampAtZero x := by
  unfold clampAtZero
  split <;> omega

/-- One sweep iteration never touches the reservation table and only
appends to the audit log. -/
theorem processExpired_effects (today : Int) (db : DB)
    (r : InventoryReservation) :
    (processExpired today db r).reservations = db.reservations ∧
    db.logs <+: (processExpired today db r).logs := by
  unfold processExpired
  cases hb : getBatch db r.batchId with
  | none => exact ⟨rfl, List.prefix_refl _⟩
  | some b =>
    cases ho : getOrder db r.orderId with
    | none => exact ⟨rfl, List.prefix_refl _⟩
    | some o =>
      dsimp only
      split
      · exact ⟨rfl, ⟨_, rfl⟩⟩
      · exact ⟨rfl, ⟨_, rfl⟩⟩

/-- A failure-free sweep pass always completes, never touches the
reservation table, and only appends to the log. -/
theorem sweepGo_ok (today : Int) :
    ∀ (l : List InventoryReservation) (db : DB),
      ∃ d, sweepGo today (fun _ => false) l db = .ok d ∧
        d.reservations = db.reservations ∧ db.logs <+: d.logs
  | [], db => ⟨db, rfl, rfl, List.prefix_refl _⟩
  | r :: rest, db => by
    obtain ⟨d, hd, hres, hlog⟩ := sweepGo_ok today rest (processExpired today db r)
    have he := processExpired_effects today db r
    exact ⟨d, hd, by rw [hres, he.1], he.2.trans hlog⟩

/-- An aborted sweep pass leaves the reservation table exactly as it was
(the final bulk delete is never reached) and has only appended log
entries. -/
theorem sweepGo_error (today : Int) (failsOn : Nat → Bool) :
    ∀ (l : List InventoryReservation) (db db' : DB),
      sweepGo today failsOn l db = .error db' →
      db'.reservations = db.reservations ∧ db.logs <+: db'.logs
  | [], db, db', h => by simp [sweepGo] at h
  | r :: rest, db, db', h => by
    unfold sweepGo at h
    by_cases hf : failsOn r.id
    · rw [if_pos hf] at h
      cases h
      exact ⟨rfl, List.prefix_refl _⟩
    · rw [if_neg hf] at h
      have he := processExpired_effects today db r
      have := sweepGo_error today failsOn rest (processExpired today db r) db' h
      exact ⟨this.1.trans he.1, he.2.trans this.2⟩

/-- Claim C7, amended.  The sweep has no per-reservation isolation: when no
error occurs it completes, deletes exactly the expired unconfirmed
reservation rows, and only appends to the (surviving) audit log; but when
an error occurs on any reservation, the sweep aborts as a whole — the
reservation table is left exactly as it was (nothing is deleted, the
remaining expired reservations are not processed), with only the log
entries of the already-processed items appended. -/
theorem C7_amended :
    (∀ now today db, ∃ db',
      cleanup_expired_reservations now today (fun _ => false) db = .ok db' ∧
      db'.reservations =
        db.reservations.filter (fun r => !isExpiredUnconfirmed now r) ∧
      db.logs <+: db'.logs) ∧
    (∀ now today failsOn db db',
      cleanup_expired_reservations now today failsOn db = .error db' →
      db'.reservations = db.reservations ∧ db.logs <+: db'.logs) := by
  constructor
  · intro now today db
    obtain ⟨d, hd, hres, hlog⟩ :=
      sweepGo_ok today (db.reservations.filter (isExpiredUnconfirmed now)) db
    refine ⟨{ d with reservations :=
      d.reservations.filter (fun r => !isExpiredUnconfirmed now r) }, ?_, ?_, ?_⟩
    · unfold cleanup_expired_reservations
      rw [hd]
    · dsimp only
      rw [hres]
    · exact hlog
  · intro now today failsOn db db' h
    unfold cleanup_expired_reservations at h
    cases hsw : sweepGo today failsOn
        (db.reservations.filter (isExpiredUnconfirmed now)) db with
    | ok d => rw [hsw] at h; cases h
    | error d =>
      rw [hsw] at h
      dsimp only at h
      injection h with hde
      subst hde
      exact sweepGo_error today failsOn _ db d hsw

/-- Claim C7, witness: the failure-free sweep of the two-reservation world
completes, and the aborted run of the same world (failure injected on
reservation 1) deletes nothing. -/
theorem C7_witness :
    (∃ db', cleanup_expired_reservations 20 0 (fun _ => false) c7db = .ok db' ∧
      db'.reservations =
        c7db.reservations.filter (fun r => !isExpiredUnconfirmed 20 r) ∧
      c7db.logs <+: db'.logs) ∧
    (c7db.reservations = c7db.reservations ∧ c7db.logs <+: c7db.logs) :=
  ⟨C7_amended.1 20 0 c7db,
   C7_amended.2 20 0 (fun rid => decide (rid = 1)) c7db c7db (by decide)⟩


/-- The `updateOrder` changes no table other than `orders`. -/
theorem getBatch_updateOrder (db : DB) (o' : Order) (bid : Nat) :
    getBatch (updateOrder db o') bid = getBatch db bid := rfl

theorem updateOrder_reservations (db : DB) (o' : Order) :
    (updateOrder db o').reservations = db.reservations := rfl

theorem addLog_logs (db : DB) (e : OrderInventoryLog) :
    (addLog db e).logs = db.logs ++ [e] := rfl

theorem getBatch_addLog (db : DB) (e : OrderInventoryLog) (bid : Nat) :
    getBatch (addLog db e) bid = getBatch db bid := rfl

/-- Combined row-update visibility: after an order update and a batch
update, looking the batch up returns the new row. -/
theorem getBatch_updateBatch_updateOrder (db : DB) (o' : Order) (b' : Batch)
    (bid : Nat) (b : Batch) (hb : getBatch db bid = some b)
    (hid : b'.id = bid) :
    getBatch (updateBatch (updateOrder db o') b') bid = some b' :=
  getBatch_update (updateOrder db o') bid b b'
    (by rw [getBatch_updateOrder]; exact hb) hid

/-- Helper for claim C8, cancellation path: cancelling a cancellable order
with a single unconfirmed reservation always succeeds, clamps the batch at
zero when the release would go negative, and appends exactly one ordinary
release log entry carrying the full reservation quantity. -/
theorem cancel_release_single (now today : Int) (db : DB) (oid : Nat)
    (reason : Option String) (uid : Option Nat) (o : Order)
    (r : InventoryReservation) (b : Batch)
    (h : getOrder db oid = some o)
    (hst : o.status = "pending_payment" ∨ o.status = "paid")
    (hr : db.reservations.filter
      (fun x => decide (x.orderId = oid) && !x.is_confirmed) = [r])
    (hb : getBatch db r.batchId = some b) :
    (cancel_order now today db oid reason uid).1 = (true, "訂單取消成功") ∧
    (getBatch (cancel_order now today db oid reason uid).2 r.batchId).map
      Batch.reserved_stock = some (clampAtZero (b.reserved_stock - r.quantity)) ∧
    0 ≤ clampAtZero (b.reserved_stock - r.quantity) ∧
    ∃ e, (cancel_order now today db oid reason uid).2.logs = db.logs ++ [e] ∧
      e.operation = "release" ∧ e.quantity = r.quantity ∧
      e.batchId = b.id ∧ e.operatorId = uid := by
  have hbid : b.id = r.batchId := find_key Batch.id r.batchId db.batches b hb
  unfold cancel_order
  rw [h]
  dsimp only
  rw [if_neg (fun hc => hst.elim (fun h1 => hc.1 h1) (fun h2 => hc.2 h2))]
  rw [updateOrder_reservations, hr]
  dsimp only [List.foldl_cons, List.foldl_nil]
  unfold releaseForCancel
  rw [getBatch_updateOrder, hb]
  dsimp only
  have hres : (releaseBatch today b r.quantity).reserved_stock =
      clampAtZero (b.reserved_stock - r.quantity) := by
    unfold releaseBatch
    exact (save_fields today _).1
  have hid2 : (releaseBatch today b r.quantity).id = r.batchId := by
    unfold releaseBatch
    rw [(save_fields today _).2.2.2]
    exact hbid
  refine ⟨rfl, ?_, clampAtZero_nonneg _, ?_⟩
  · rw [getBatch_addLog]
    rw [getBatch_updateBatch_updateOrder db _ _ r.batchId b hb hid2]
    rw [Option.map_some']
    rw [hres]
  · exact ⟨_, rfl, rfl, rfl, rfl, rfl⟩

/-- Helper for claim C8, expiry path: sweeping a single expired unconfirmed
reservation (with no injected failure) completes, clamps the batch at zero
when the release would go negative, appends exactly one ordinary expire
log entry carrying the full reservation quantity, and deletes the expired
row. -/
theorem sweep_release_single (now today : Int) (db : DB) (o : Order)
    (r : InventoryReservation) (b : Batch)
    (hr : db.reservations.filter (isExpiredUnconfirmed now) = [r])
    (hb : getBatch db r.batchId = some b)
    (ho : getOrder db r.orderId = some o) :
    ∃ db', cleanup_expired_reservations now today (fun _ => false) db = .ok db' ∧
      (getBatch db' r.batchId).map Batch.reserved_stock =
        some (clampAtZero (b.reserved_stock - r.quantity)) ∧
      0 ≤ clampAtZero (b.reserved_stock - r.quantity) ∧
      (∃ e, db'.logs = db.logs ++ [e] ∧ e.operation = "expire" ∧
        e.quantity = r.quantity ∧ e.batchId = b.id ∧ e.operatorId = none) ∧
      db'.reservations = db.reservations.filter
        (fun x => !isExpiredUnconfirmed now x) := by
  have hbid : b.id = r.batchId := find_key Batch.id r.batchId db.batches b hb
  have hres : (releaseBatch today b r.quantity).reserved_stock =
      clampAtZero (b.reserved_stock - r.quantity) := by
    unfold releaseBatch
    exact (save_fields today _).1
  have hid2 : (releaseBatch today b r.quantity).id = r.batchId := by
    unfold releaseBatch
    rw [(save_fields today _).2.2.2]
    exact hbid
  have hfind := getBatch_update db r.batchId b (releaseBatch today b r.quantity)
    hb hid2
  unfold cleanup_expired_reservations
  rw [hr]
  unfold sweepGo
  unfold sweepGo
  unfold processExpired
  rw [hb, ho]
  dsimp only
  by_cases hst : o.status = "pending_payment"
  · rw [if_pos hst]
    refine ⟨_, rfl, ?_, clampAtZero_nonneg _, ⟨_, rfl, rfl, rfl, rfl, rfl⟩, rfl⟩
    show (getBatch (updateBatch db (releaseBatch today b r.quantity))
        r.batchId).map Batch.reserved_stock =
      some (clampAtZero (b.reserved_stock - r.quantity))
    rw [hfind, Option.map_some', hres]
  · rw [if_neg hst]
    refine ⟨_, rfl, ?_, clampAtZero_nonneg _, ⟨_, rfl, rfl, rfl, rfl, rfl⟩, rfl⟩
    show (getBatch (updateBatch db (releaseBatch today b r.quantity))
        r.batchId).map Batch.reserved_stock =
      some (clampAtZero (b.reserved_stock - r.quantity))
    rw [hfind, Option.map_some', hres]

/-- Claim C8, amended.  When a release (`cancel_order`) or an expiry sweep
would drive `reserved_stock` below zero, the batch is clamped to exactly
zero and no error is raised — both operations complete successfully and
append only the ordinary release/expire log entry carrying the full
reservation quantity and no anomaly marker, so the entry is the same
whether or not the clamp fired and the anomaly is not distinctly
observable in the audit log. -/
theorem C8_amended :
    (∀ (now today : Int) (db : DB) (oid : Nat) (reason : Option String)
        (uid : Option Nat) (o : Order) (r : InventoryReservation) (b : Batch),
      getOrder db oid = some o →
      (o.status = "pending_payment" ∨ o.status = "paid") →
      db.reservations.filter
        (fun x => decide (x.orderId = oid) && !x.is_confirmed) = [r] →
      getBatch db r.batchId = some b →
      (cancel_order now today db oid reason uid).1 = (true, "訂單取消成功") ∧
      (getBatch (cancel_order now today db oid reason uid).2 r.batchId).map
        Batch.reserved_stock =
        some (clampAtZero (b.reserved_stock - r.quantity)) ∧
      0 ≤ clampAtZero (b.reserved_stock - r.quantity) ∧
      ∃ e, (cancel_order now today db oid reason uid).2.logs = db.logs ++ [e] ∧
        e.operation = "release" ∧ e.quantity = r.quantity ∧
        e.batchId = b.id ∧ e.operatorId = uid) ∧
    (∀ (now today : Int) (db : DB) (o : Order) (r : InventoryReservation)
        (b : Batch),
      db.reservations.filter (isExpiredUnconfirmed now) = [r] →
      getBatch db r.batchId = some b →
      getOrder db r.orderId = some o →
      ∃ db', cleanup_expired_reservations now today (fun _ => false) db = .ok db' ∧
        (getBatch db' r.batchId).map Batch.reserved_stock =
          some (clampAtZero (b.reserved_stock - r.quantity)) ∧
        0 ≤ clampAtZero (b.reserved_stock - r.quantity) ∧
        (∃ e, db'.logs = db.logs ++ [e] ∧ e.operation = "expire" ∧
          e.quantity = r.quantity ∧ e.batchId = b.id ∧ e.operatorId = none) ∧
        db'.reservations = db.reservations.filter
          (fun x => !isExpiredUnconfirmed now x)) :=
  ⟨fun now today db oid reason uid o r b h hst hr hb =>
    cancel_release_single now today db oid reason uid o r b h hst hr hb,
   fun now today db o r b hr hb ho =>
    sweep_release_single now today db o r b hr hb ho⟩

/-- Claim C8, witness: the clamped cancellation scenario and the clamped
expiry-sweep scenario (each with 5 reserved, releasing 10). -/
theorem C8_witness :
    getOrder c8dbClamped 1 = some { c5order with order_number := "ORD-C8" } ∧
    (cancel_order 50 0 c8dbClamped 1 (some "不想要了") (some 9)).1 =
      (true, "訂單取消成功") ∧
    (getBatch (cancel_order 50 0 c8dbClamped 1 (some "不想要了") (some 9)).2
        c8resv.batchId).map Batch.reserved_stock =
      some (clampAtZero ((5 : Int) - 10)) ∧
    (∃ db', cleanup_expired_reservations 50 0 (fun _ => false) c8swClamped =
        .ok db' ∧
      (getBatch db' c8swResv.batchId).map Batch.reserved_stock =
        some (clampAtZero ((5 : Int) - 10)) ∧
      0 ≤ clampAtZero ((5 : Int) - 10) ∧
      (∃ e, db'.logs = c8swClamped.logs ++ [e] ∧ e.operation = "expire" ∧
        e.quantity = c8swResv.quantity ∧
        e.batchId = ({ freshBatch 1 "B8S" 100 with
          stock := 95, reserved_stock := 5 } : Batch).id ∧
        e.operatorId = none) ∧
      db'.reservations = c8swClamped.reservations.filter
        (fun x => !isExpiredUnconfirmed 50 x)) := by
  have happ := C8_amended.1 50 0 c8dbClamped 1 (some "不想要了") (some 9)
    { c5order with order_number := "ORD-C8" } c8resv
    { freshBatch 1 "B8" 100 with stock := 95, reserved_stock := 5 }
    (by decide) (Or.inl (by decide)) (by decide) (by decide)
  have happ2 := C8_amended.2 50 0 c8swClamped c8swOrder c8swResv
    { freshBatch 1 "B8S" 100 with stock := 95, reserved_stock := 5 }
    (by decide) (by decide) (by decide)
  exact ⟨by decide, happ.1, happ.2.1, happ2⟩

/-- The `componentCaps` aborts (returns `none`) exactly when some relation with
positive quantity has a null batch — the spec's hard-blocker condition. -/
theorem componentCaps_none_iff (db : DB) : ∀ rels : List ProductItemRelation,
    componentCaps db rels = none ↔
      (rels.any (fun rel =>
        decide (0 < rel.quantity) && (rel.batchId.bind (getBatch db)).isNone)) = true
  | [] => by simp [componentCaps]
  | rel :: rest => by
    unfold componentCaps
    by_cases hq : rel.quantity ≤ 0
    · rw [if_pos hq]
      have hq' : ¬ (0 < rel.quantity) := not_lt.mpr hq
      rw [componentCaps_none_iff db rest]
      simp [List.any_cons, hq']
    · rw [if_neg hq]
      have hq' : 0 < rel.quantity := lt_of_not_le hq
      cases hbat : rel.batchId.bind (getBatch db) with
      | none => simp [List.any_cons, hq', hbat]
      | some b =>
        dsimp only
        by_cases hbq : 0 < b.quantity
        · rw [if_pos hbq]
          rw [Option.map_eq_none', componentCaps_none_iff db rest]
          simp [List.any_cons, hq', hbat]
        · rw [if_neg hbq]
          rw [componentCaps_none_iff db rest]
          simp [List.any_cons, hq', hbat]

/-- When `componentCaps` completes, it collects exactly the floors of the
positive-quantity, non-null, positive-stock components, in order. -/
theorem componentCaps_some (db : DB) : ∀ (rels : List ProductItemRelation)
    (caps : List Int), componentCaps db rels = some caps →
    caps = rels.filterMap (fun rel =>
      if 0 < rel.quantity then
        (rel.batchId.bind (getBatch db)).bind
          (fun b => if 0 < b.quantity then
            some (Int.floor ((b.quantity : ℚ) / rel.quantity))
          else none)
      else none)
  | [], caps, h => by
    simp [componentCaps] at h
    simp [← h]
  | rel :: rest, caps, h => by
    unfold componentCaps at h
    by_cases hq : rel.quantity ≤ 0
    · rw [if_pos hq] at h
      have hq' : ¬ (0 < rel.quantity) := not_lt.mpr hq
      simp only [List.filterMap_cons, if_neg hq']
      exact componentCaps_some db rest caps h
    · rw [if_neg hq] at h
      have hq' : 0 < rel.quantity := lt_of_not_le hq
      cases hbat : rel.batchId.bind (getBatch db) with
      | none => rw [hbat] at h; cases h
      | some b =>
        rw [hbat] at h
        dsimp only at h
        by_cases hbq : 0 < b.quantity
        · rw [if_pos hbq] at h
          cases hrest : componentCaps db rest with
          | none => rw [hrest] at h; cases h
          | some caps' =>
            rw [hrest] at h
            simp only [Option.map_some'] at h
            injection h with hcaps
            simp only [List.filterMap_cons, if_pos hq', hbat, Option.some_bind,
              if_pos hbq]
            rw [← hcaps, componentCaps_some db rest caps' hrest,
              pyFloorDiv_eq_floor b.quantity rel.quantity hq']
        · rw [if_neg hbq] at h
          simp only [List.filterMap_cons, if_pos hq', hbat, Option.some_bind,
            if_neg hbq]
          exact componentCaps_some db rest caps h

/-- Claim C2, amended.  `calculate_available_stock` equals the min-of-floors
formula restricted to the components that actually contribute: relations
with `quantity > 0` whose batch is non-null *and* has
`total_quantity > 0`; zero with no relations, zero when a positive-quantity
relation has a null batch, zero when nothing contributes. -/
theorem C2_amended (db : DB) (pid : Nat) :
    calculate_available_stock db pid = specAvailableStockAmended db pid := by
  unfold calculate_available_stock specAvailableStockAmended
  by_cases he : (relationsOf db pid).isEmpty = true
  · rw [if_pos he, if_pos he]
  · rw [if_neg he, if_neg he]
    by_cases ha : ((relationsOf db pid).any (fun rel =>
        decide (0 < rel.quantity) && (rel.batchId.bind (getBatch db)).isNone)) = true
    · rw [if_pos ha, (componentCaps_none_iff db _).mpr ha]
    · rw [if_neg ha]
      cases hc : componentCaps db (relationsOf db pid) with
      | none => exact absurd ((componentCaps_none_iff db _).mp hc) ha
      | some caps =>
        have hcaps := componentCaps_some db _ caps hc
        rw [← hcaps]
        cases caps with
        | nil => rfl
        | cons c cs => rfl

/-- The Python dict update `batch_quantities[k] += q` / `= q` keeps the key
order: an existing key stays in place, a new key is appended. -/
theorem addQty_keys (k : Nat) (q : Int) : ∀ acc : List (Nat × Int),
    (addQty acc k q).map Prod.fst =
      if k ∈ acc.map Prod.fst then acc.map Prod.fst
      else acc.map Prod.fst ++ [k]
  | [] => by simp [addQty]
  | (k0, q0) :: rest => by
    unfold addQty
    by_cases hk : k0 = k
    · subst hk
      simp
    · rw [if_neg hk]
      have hne : ¬ k = k0 := fun hc => hk hc.symm
      by_cases hm : k ∈ rest.map Prod.fst
      · simp [addQty_keys k q rest, hm, hne]
      · simp [addQty_keys k q rest, hm, hne]

/-- The `dedupFirstAux` only depends on the membership of the seen set. -/
theorem dedupFirstAux_congr : ∀ (l : List Nat) (seen1 seen2 : List Nat),
    (∀ x, x ∈ seen1 ↔ x ∈ seen2) →
    dedupFirstAux seen1 l = dedupFirstAux seen2 l
  | [], _, _, _ => rfl
  | k :: rest, seen1, seen2, h => by
    unfold dedupFirstAux
    by_cases hm : k ∈ seen1
    · rw [if_pos hm, if_pos ((h k).mp hm)]
      exact dedupFirstAux_congr rest seen1 seen2 h
    · rw [if_neg hm, if_neg (fun hc => hm ((h k).mpr hc))]
      refine congrArg (k :: ·) (dedupFirstAux_congr rest _ _ ?_)
      intro x
      simp only [List.mem_cons]
      exact or_congr Iff.rfl (h x)

/-- Folding the dict update over an enumeration produces the keys of the
accumulator followed by the first occurrences of the new keys, in
enumeration order. -/
theorem foldl_addQty_keys : ∀ (l : List (Nat × Int)) (acc : List (Nat × Int)),
    (l.foldl (fun a kq => addQty a kq.1 kq.2) acc).map Prod.fst =
      acc.map Prod.fst ++ dedupFirstAux (acc.map Prod.fst) (l.map Prod.fst)
  | [], acc => by simp [dedupFirstAux]
  | kq :: rest, acc => by
    rw [List.foldl_cons, List.map_cons]
    unfold dedupFirstAux
    by_cases hm : kq.1 ∈ acc.map Prod.fst
    · rw [if_pos hm, foldl_addQty_keys rest (addQty acc kq.1 kq.2),
        addQty_keys kq.1 kq.2 acc, if_pos hm]
    · rw [if_neg hm, foldl_addQty_keys rest (addQty acc kq.1 kq.2),
        addQty_keys kq.1 kq.2 acc, if_neg hm]
      rw [dedupFirstAux_congr (rest.map Prod.fst)
        (acc.map Prod.fst ++ [kq.1]) (kq.1 :: acc.map Prod.fst)
        (by intro x; simp [or_comm])]
      rw [List.append_assoc, List.singleton_append]

/-- Claim C4, amended.  The `batch_lock` keys are attempted in the order
in which batch ids are first encountered while scanning the cart lines and
their component relations (Python dict insertion order, with per-batch
quantities aggregated) — not sorted by batch id. -/
theorem C4_amended (db : DB) (cart : List CartItem) :
    (batch_quantities db cart).map Prod.fst =
      dedupFirst ((enumNeeds db cart).map Prod.fst) := by
  unfold batch_quantities dedupFirst
  have h := foldl_addQty_keys (enumNeeds db cart) []
  simpa using h

/-- The release mutation always leaves a nonnegative `reserved_stock`. -/
theorem releaseBatch_nonneg (today : Int) (b : Batch) (q : Int) :
    0 ≤ (releaseBatch today b q).reserved_stock := by
  unfold releaseBatch
  rw [(save_fields today _).1]
  exact clampAtZero_nonneg _

/-- Replacing one batch row by a row with nonnegative `reserved_stock`
preserves table-wide nonnegativity. -/
theorem updateBatch_nonneg (db : DB) (b' : Batch)
    (hdb : ∀ b ∈ db.batches, 0 ≤ b.reserved_stock)
    (hb' : 0 ≤ b'.reserved_stock) :
    ∀ b ∈ (updateBatch db b').batches, 0 ≤ b.reserved_stock := by
  intro b hb
  unfold updateBatch at hb
  simp only [List.mem_map] at hb
  obtain ⟨x, hx, hxe⟩ := hb
  by_cases hid : x.id = b'.id
  · rw [if_pos hid] at hxe
    rw [← hxe]
    exact hb'
  · rw [if_neg hid] at hxe
    rw [← hxe]
    exact hdb x hx

/-- One cancellation release step preserves table-wide nonnegativity. -/
theorem releaseForCancel_nonneg (today : Int) (o : Order)
    (reason : Option String) (uid : Option Nat) (db : DB)
    (r : InventoryReservation)
    (hdb : ∀ b ∈ db.batches, 0 ≤ b.reserved_stock) :
    ∀ b ∈ (releaseForCancel today o reason uid db r).batches,
      0 ≤ b.reserved_stock := by
  unfold releaseForCancel
  cases getBatch db r.batchId with
  | none => exact hdb
  | some b0 =>
    dsimp only
    intro b hb
    exact updateBatch_nonneg db _ hdb (releaseBatch_nonneg today b0 r.quantity) b hb

/-- Claim C3 helper: `cancel_order` preserves table-wide nonnegativity of
`reserved_stock`. -/
theorem cancel_order_nonneg (now today : Int) (db : DB) (oid : Nat)
    (reason : Option String) (uid : Option Nat)
    (hdb : ∀ b ∈ db.batches, 0 ≤ b.reserved_stock) :
    ∀ b ∈ (cancel_order now today db oid reason uid).2.batches,
      0 ≤ b.reserved_stock := by
  unfold cancel_order
  cases getOrder db oid with
  | none => exact hdb
  | some o =>
    dsimp only
    split
    · exact hdb
    · have hfold : ∀ (o' : Order) (l : List InventoryReservation) (d : DB),
          (∀ b ∈ d.batches, 0 ≤ b.reserved_stock) →
          ∀ b ∈ (l.foldl (releaseForCancel today o' reason uid) d).batches,
            0 ≤ b.reserved_stock := by
        intro o' l
        induction l with
        | nil => intro d hd; exact hd
        | cons r rest ih =>
          intro d hd
          rw [List.foldl_cons]
          exact ih _ (releaseForCancel_nonneg today o' reason uid d r hd)
      exact hfold _ _ _ hdb

/-- Claim C3 helper: one sweep iteration preserves table-wide
nonnegativity. -/
theorem processExpired_nonneg (today : Int) (db : DB)
    (r : InventoryReservation)
    (hdb : ∀ b ∈ db.batches, 0 ≤ b.reserved_stock) :
    ∀ b ∈ (processExpired today db r).batches, 0 ≤ b.reserved_stock := by
  unfold processExpired
  cases getBatch db r.batchId with
  | none => exact hdb
  | some b0 =>
    cases getOrder db r.orderId with
    | none => exact hdb
    | some o =>
      dsimp only
      split
      · exact updateBatch_nonneg db _ hdb (releaseBatch_nonneg today b0 r.quantity)
      · exact updateBatch_nonneg db _ hdb (releaseBatch_nonneg today b0 r.quantity)

/-- Claim C3 helper: the sweep — completed or aborted — preserves
table-wide nonnegativity. -/
theorem cleanup_nonneg (now today : Int) (failsOn : Nat → Bool) (db : DB)
    (hdb : ∀ b ∈ db.batches, 0 ≤ b.reserved_stock) :
    ∀ b ∈ (sweepOut (cleanup_expired_reservations now today failsOn db)).batches,
      0 ≤ b.reserved_stock := by
  have hgo : ∀ (l : List InventoryReservation) (d : DB),
      (∀ b ∈ d.batches, 0 ≤ b.reserved_stock) →
      ∀ b ∈ (sweepOut (sweepGo today failsOn l d)).batches,
        0 ≤ b.reserved_stock := by
    intro l
    induction l with
    | nil => intro d hd; exact hd
    | cons r rest ih =>
      intro d hd
      unfold sweepGo
      by_cases hf : failsOn r.id
      · rw [if_pos hf]
        exact hd
      · rw [if_neg hf]
        exact ih _ (processExpired_nonneg today d r hd)
  unfold cleanup_expired_reservations
  cases hsw : sweepGo today failsOn
      (db.reservations.filter (isExpiredUnconfirmed now)) db with
  | error d =>
    have := hgo (db.reservations.filter (isExpiredUnconfirmed now)) db hdb
    rw [hsw] at this
    exact this
  | ok d =>
    have := hgo (db.reservations.filter (isExpiredUnconfirmed now)) db hdb
    rw [hsw] at this
    exact this

/-- The needed quantity `int(relation.quantity * quantity)` is nonnegative
when both factors are. -/
theorem needed_nonneg (q : ℚ) (n : Int) (hq : 0 ≤ q) (hn : 0 ≤ n) :
    0 ≤ pyint (ratMul q (Rat.ofInt n)) := by
  apply pyint_nonneg
  rw [ratMul_eq, Rat.ofInt_eq_cast]
  exact mul_nonneg hq (by exact_mod_cast hn)

/-- Claim C3 helper: the in-transaction reservation loop preserves
table-wide nonnegativity of `reserved_stock` (under nonnegative relation
quantities and cart quantity) and never touches the relation table. -/
theorem reserveRelations_nonneg (today deadline : Int) (oid : Nat)
    (onum : String) (p : Product) (qty : Int) (hqty : 0 ≤ qty) :
    ∀ (l : List ProductItemRelation) (db : DB) (out : DB),
      (∀ rel ∈ l, 0 ≤ rel.quantity) →
      reserveRelations today deadline oid onum p qty l db = .ok out →
      (∀ b ∈ db.batches, 0 ≤ b.reserved_stock) →
      (∀ b ∈ out.batches, 0 ≤ b.reserved_stock) ∧ out.relations = db.relations
  | [], db, out, _, h, hdb => by
    unfold reserveRelations at h
    injection h with h
    rw [← h]
    exact ⟨hdb, rfl⟩
  | rel :: rest, db, out, hrels, h, hdb => by
    unfold reserveRelations at h
    cases hlook : rel.batchId.bind (getBatch db) with
    | none =>
      rw [hlook] at h
      exact reserveRelations_nonneg today deadline oid onum p qty hqty rest db
        out (fun x hx => hrels x (List.mem_cons_of_mem rel hx)) h hdb
    | some b =>
      rw [hlook] at h
      dsimp only at h
      by_cases hav : b.available_stock < pyint (ratMul rel.quantity (Rat.ofInt qty))
      · rw [if_pos hav] at h
        cases h
      · rw [if_neg hav] at h
        have hneed : 0 ≤ pyint (ratMul rel.quantity (Rat.ofInt qty)) :=
          needed_nonneg rel.quantity qty (hrels rel (List.mem_cons_self rel rest)) hqty
        have hb0 : 0 ≤ b.reserved_stock := by
          obtain ⟨bid, _, hget⟩ := Option.bind_eq_some.mp hlook
          exact hdb b (List.mem_of_find?_eq_some hget)
        have hres : 0 ≤ (reserveBatch today b
            (pyint (ratMul rel.quantity (Rat.ofInt qty)))).reserved_stock := by
          unfold reserveBatch
          rw [(save_fields today _).1]
          dsimp only
          omega
        have hnext := reserveRelations_nonneg today deadline oid onum p qty hqty
          rest _ out (fun x hx => hrels x (List.mem_cons_of_mem rel hx)) h
          (fun b1 hb1 => updateBatch_nonneg db _ hdb hres b1 hb1)
        exact ⟨hnext.1, hnext.2⟩

/-- Claim C3 helper: the per-line transaction loop preserves table-wide
nonnegativity under nonnegative relation quantities and cart
quantities. -/
theorem processCartItems_nonneg (today deadline : Int) (oid : Nat)
    (onum : String) :
    ∀ (cart : List CartItem) (db : DB) (total : ℚ) (out : DB × ℚ),
      (∀ rel ∈ db.relations, 0 ≤ rel.quantity) →
      (∀ ci ∈ cart, 0 ≤ ci.quantity) →
      processCartItems today deadline oid onum cart db total = .ok out →
      (∀ b ∈ db.batches, 0 ≤ b.reserved_stock) →
      (∀ b ∈ out.1.batches, 0 ≤ b.reserved_stock) ∧
        out.1.relations = db.relations
  | [], db, total, out, _, _, h, hdb => by
    unfold processCartItems at h
    injection h with h
    rw [← h]
    exact ⟨hdb, rfl⟩
  | ci :: rest, db, total, out, hrels, hcart, h, hdb => by
    unfold processCartItems at h
    cases hp : ci.product with
    | none => rw [hp] at h; cases h
    | some p =>
      rw [hp] at h
      dsimp only at h
      split at h
      · cases h
      · rename_i db2 heq
        have hq0 : 0 ≤ ci.quantity := hcart ci (List.mem_cons_self ci rest)
        have hmid := reserveRelations_nonneg today deadline oid onum p
          ci.quantity hq0 _ _ db2
          (fun x hx => hrels x (List.mem_of_mem_filter hx)) heq hdb
        have hnext := processCartItems_nonneg today deadline oid onum rest db2 _
          out (by rw [hmid.2]; exact hrels)
          (fun x hx => hcart x (List.mem_cons_of_mem ci hx)) h hmid.1
        exact ⟨hnext.1, hnext.2.trans hmid.2⟩

/-- Claim C3 helper: a committed transaction preserves table-wide
nonnegativity under nonnegative relation and cart quantities. -/
theorem orderTransaction_nonneg (today deadline : Int) (onum : String)
    (uid : Nat) (cart : List CartItem) (ship : ShippingInfo)
    (keys : List String) (db : DB) (out : Order × DB)
    (hrels : ∀ rel ∈ db.relations, 0 ≤ rel.quantity)
    (hcart : ∀ ci ∈ cart, 0 ≤ ci.quantity)
    (h : orderTransaction today deadline onum uid cart ship keys db = .ok out)
    (hdb : ∀ b ∈ db.batches, 0 ≤ b.reserved_stock) :
    ∀ b ∈ out.2.batches, 0 ≤ b.reserved_stock := by
  unfold orderTransaction at h
  split at h
  · cases h
  · dsimp only at h
    split at h
    · cases h
    · rename_i dbt tott heq
      have hmid := processCartItems_nonneg today deadline _ onum cart _ 0
        (dbt, tott) (fun x hx => hrels x (by exact hx)) hcart heq
        (fun b hb => hdb b (by exact hb))
      injection h with h
      rw [← h]
      exact hmid.1

/-- Claim C3 helper: `create_order_with_inventory_reservation` preserves
table-wide nonnegativity of `reserved_stock` whenever every component
relation quantity and every cart quantity is nonnegative. -/
theorem create_order_nonneg (now today : Int) (cfg : OrderConfig)
    (onum : String) (uid : Nat) (cart : List CartItem)
    (ship : ShippingInfo) (db : DB) (redis : List String)
    (hrels : ∀ rel ∈ db.relations, 0 ≤ rel.quantity)
    (hcart : ∀ ci ∈ cart, 0 ≤ ci.quantity)
    (hdb : ∀ b ∈ db.batches, 0 ≤ b.reserved_stock) :
    ∀ b ∈ (create_order_with_inventory_reservation now today cfg onum uid
      cart ship db redis).db.batches, 0 ≤ b.reserved_stock := by
  simp only [create_order_with_inventory_reservation]
  split
  · exact hdb
  · split
    · exact hdb
    · split
      · exact hdb
      · split
        · split
          · rename_i od heq
            exact orderTransaction_nonneg today _ onum uid cart ship _ db od
              hrels hcart heq hdb
          · exact hdb
        · exact hdb

/-- Claim C3, amended.  After every `Batch.save` the stock identity
`active_stock + normal_stock + reserved_stock = total_quantity` holds
unconditionally (save recomputes normal stock whenever it would be
violated).  `reserved_stock ≥ 0` is preserved by every release
(`cancel_order`) and every expiry sweep (completed or aborted), and by
`create_order_with_inventory_reservation` whenever every component
relation quantity and every cart quantity is nonnegative — the proviso
the unguarded reserve path actually needs (see the counterexample with a
negative relation quantity). -/
theorem C3_amended :
    (∀ (today : Int) (b : Batch),
      (Batch.save today b).active_stock + (Batch.save today b).stock +
        (Batch.save today b).reserved_stock = (Batch.save today b).quantity) ∧
    (∀ (now today : Int) (db : DB) (oid : Nat) (reason : Option String)
        (uid : Option Nat),
      (∀ b ∈ db.batches, 0 ≤ b.reserved_stock) →
      ∀ b ∈ (cancel_order now today db oid reason uid).2.batches,
        0 ≤ b.reserved_stock) ∧
    (∀ (now today : Int) (failsOn : Nat → Bool) (db : DB),
      (∀ b ∈ db.batches, 0 ≤ b.reserved_stock) →
      ∀ b ∈ (sweepOut (cleanup_expired_reservations now today failsOn db)).batches,
        0 ≤ b.reserved_stock) ∧
    (∀ (now today : Int) (cfg : OrderConfig) (onum : String) (uid : Nat)
        (cart : List CartItem) (ship : ShippingInfo) (db : DB)
        (redis : List String),
      (∀ rel ∈ db.relations, 0 ≤ rel.quantity) →
      (∀ ci ∈ cart, 0 ≤ ci.quantity) →
      (∀ b ∈ db.batches, 0 ≤ b.reserved_stock) →
      ∀ b ∈ (create_order_with_inventory_reservation now today cfg onum uid
        cart ship db redis).db.batches, 0 ≤ b.reserved_stock) :=
  ⟨save_identity, cancel_order_nonneg, cleanup_nonneg, create_order_nonneg⟩

/-- Claim C3, witness: the identity on a concrete save, and nonnegativity
preserved through a concrete cancel, sweep, and order creation. -/
theorem C3_witness :
    ((Batch.save 0 (freshBatch 1 "B100" 100)).active_stock +
      (Batch.save 0 (freshBatch 1 "B100" 100)).stock +
      (Batch.save 0 (freshBatch 1 "B100" 100)).reserved_stock =
      (Batch.save 0 (freshBatch 1 "B100" 100)).quantity) ∧
    (∀ b ∈ (cancel_order 50 0 c8dbClamped 1 none none).2.batches,
      0 ≤ b.reserved_stock) ∧
    (∀ b ∈ (sweepOut (cleanup_expired_reservations 20 0 (fun _ => false)
      c7db)).batches, 0 ≤ b.reserved_stock) ∧
    (∀ b ∈ c1run.db.batches, 0 ≤ b.reserved_stock) :=
  ⟨C3_amended.1 0 _,
   C3_amended.2.1 50 0 c8dbClamped 1 none none (by decide),
   C3_amended.2.2.1 20 0 (fun _ => false) c7db (by decide),
   C3_amended.2.2.2 0 0 stdConfig "ORD-C1" 7 c1cart emptyShipping c1db []
     (by decide) (by decide) (by decide)⟩

/-- Scenario C9: the component-relation lookup for the product. -/
theorem c9_relationsOf (db : DB) (hrel : db.relations = [c9rel]) :
    relationsOf db 1 = [c9rel] := by
  unfold relationsOf
  rw [hrel]
  rfl

/-- Scenario C9: the batch lookup. -/
theorem c9_getBatch (db : DB) (K r : Int) (hbat : db.batches = [c9batch K r]) :
    getBatch db 1 = some (c9batch K r) := by
  unfold getBatch
  rw [hbat]
  rfl

/-- Scenario C9: one needed unit per order unit. -/
theorem c9_needed : pyint (ratMul (1 : ℚ) (Rat.ofInt 1)) = 1 := by
  decide

/-- Scenario C9: the derived availability of the batch after `r` committed
one-unit reservations. -/
theorem c9_available (K r : Int) :
    (c9batch K r).available_stock = K - 2*r := by
  unfold c9batch Batch.available_stock
  dsimp only
  ring

/-- Scenario C9: committing one more unit rebalances the batch to the
`r + 1` state. -/
theorem c9_reserveBatch (today K r : Int) :
    reserveBatch today (c9batch K r) 1 = c9batch K (r + 1) := by
  unfold reserveBatch Batch.save c9batch
  dsimp only
  rw [if_pos (by omega)]
  simp [Batch.mk.injEq]

/-- Scenario C9: replacing the single batch row. -/
theorem c9_updateBatch (db : DB) (K r : Int)
    (hbat : db.batches = [c9batch K r]) :
    (updateBatch db (c9batch K (r + 1))).batches = [c9batch K (r + 1)] := by
  unfold updateBatch
  dsimp only
  rw [hbat]
  rfl

/-- Scenario C9: the advisory availability check fails exactly on
exhausted double-counted availability. -/
theorem c9_check_some (db : DB) (K r : Int) (hrel : db.relations = [c9rel])
    (hbat : db.batches = [c9batch K r]) (hlt : K - 2*r < 1) :
    check_inventory_availability db c9cart =
      some (.insufficient "白蝦") := by
  unfold check_inventory_availability c9cart firstSome checkItem
  dsimp only [c9product]
  rw [c9_relationsOf db hrel]
  unfold checkRels
  dsimp only [c9rel]
  simp only [List.isEmpty_cons, Bool.false_eq_true, if_false, Option.some_bind]
  rw [c9_getBatch db K r hbat]
  dsimp only
  rw [c9_needed, c9_available]
  rw [if_pos hlt]

/-- Scenario C9: the advisory availability check passes while
double-counted availability remains. -/
theorem c9_check_none (db : DB) (K r : Int) (hrel : db.relations = [c9rel])
    (hbat : db.batches = [c9batch K r]) (hge : ¬ K - 2*r < 1) :
    check_inventory_availability db c9cart = none := by
  unfold check_inventory_availability c9cart firstSome checkItem
  dsimp only [c9product]
  rw [c9_relationsOf db hrel]
  unfold checkRels
  dsimp only [c9rel]
  simp only [List.isEmpty_cons, Bool.false_eq_true, if_false, Option.some_bind]
  rw [c9_getBatch db K r hbat]
  dsimp only
  rw [c9_needed, c9_available]
  rw [if_neg hge]
  rfl

/-- Scenario C9: a committed transaction requires `K - 2r ≥ 1` on entry and
moves the single batch to the `r + 1` state, leaving the relation table
alone. -/
theorem c9_transaction (today deadline K r : Int) (onum : String) (uid : Nat)
    (ship : ShippingInfo) (keys : List String) (db : DB) (out : Order × DB)
    (hrel : db.relations = [c9rel]) (hbat : db.batches = [c9batch K r])
    (h : orderTransaction today deadline onum uid c9cart ship keys db = .ok out) :
    1 ≤ K - 2*r ∧ out.2.relations = [c9rel] ∧
      out.2.batches = [c9batch K (r + 1)] := by
  by_cases hlt : K - 2*r < 1
  · unfold orderTransaction at h
    rw [c9_check_some db K r hrel hbat hlt] at h
    dsimp only at h
    cases h
  · unfold orderTransaction at h
    rw [c9_check_none db K r hrel hbat hlt] at h
    dsimp only at h
    unfold c9cart processCartItems at h
    dsimp only [c9product] at h
    rw [c9_relationsOf _ (by exact hrel)] at h
    unfold reserveRelations at h
    dsimp only [c9rel] at h
    simp only [Option.some_bind] at h
    rw [c9_getBatch _ K r (by exact hbat)] at h
    dsimp only at h
    rw [c9_needed, c9_available] at h
    rw [if_neg hlt] at h
    rw [c9_reserveBatch today K r] at h
    unfold reserveRelations processCartItems at h
    dsimp only at h
    injection h with h2
    refine ⟨by omega, ?_, ?_⟩
    · rw [← h2]
      exact hrel
    · rw [← h2]
      exact c9_updateBatch _ K r (by exact hbat)

/-- Scenario C9: one interleaving step preserves the carts and the batch
invariant `0 ≤ r ∧ 2r ≤ K + 1`. -/
theorem c9_step (now today : Int) (cfg : OrderConfig) (K : Int) (s : Sys)
    (i : Nat)
    (hproc : ∀ p ∈ s.procs, p.1.cart = c9cart)
    (hinv : ∃ r : Int, 0 ≤ r ∧ 2*r ≤ K + 1 ∧ s.db.relations = [c9rel] ∧
      s.db.batches = [c9batch K r]) :
    (∀ p ∈ (sysStep now today cfg s i).procs, p.1.cart = c9cart) ∧
    ∃ r : Int, 0 ≤ r ∧ 2*r ≤ K + 1 ∧
      (sysStep now today cfg s i).db.relations = [c9rel] ∧
      (sysStep now today cfg s i).db.batches = [c9batch K r] := by
  obtain ⟨r, hr0, hr1, hrel, hbat⟩ := hinv
  unfold sysStep
  cases hp : s.procs[i]? with
  | none => exact ⟨hproc, r, hr0, hr1, hrel, hbat⟩
  | some pa =>
    obtain ⟨att, ph⟩ := pa
    have hcart : att.cart = c9cart := hproc (att, ph) (List.getElem?_mem hp)
    have hset : ∀ (x : AttemptPhase),
        ∀ p ∈ s.procs.set i (att, x), p.1.cart = c9cart := by
      intro x p hpmem
      cases List.mem_or_eq_of_mem_set hpmem with
      | inl hin => exact hproc p hin
      | inr heq => rw [heq]; exact hcart
    cases ph with
    | ready =>
      dsimp only
      exact ⟨hset _, r, hr0, hr1, hrel, hbat⟩
    | locked keys =>
      dsimp only
      unfold attemptLocked
      rw [hcart]
      dsimp only
      split
      · rename_i od htx
        have hstep := c9_transaction today (now + cfg.payment_timeout_minutes)
          K r att.orderNumber att.userId att.shipping keys s.db od hrel hbat htx
        exact ⟨hset _, r + 1, by omega, by omega, hstep.2.1, hstep.2.2⟩
      · exact ⟨hset _, r, hr0, hr1, hrel, hbat⟩
    | finished ok =>
      dsimp only
      exact ⟨hproc, r, hr0, hr1, hrel, hbat⟩

/-- Scenario C9: the invariant holds after any schedule. -/
theorem c9_run (now today : Int) (cfg : OrderConfig) (K : Int) :
    ∀ (sched : List Nat) (s : Sys),
      (∀ p ∈ s.procs, p.1.cart = c9cart) →
      (∃ r : Int, 0 ≤ r ∧ 2*r ≤ K + 1 ∧ s.db.relations = [c9rel] ∧
        s.db.batches = [c9batch K r]) →
      ∃ r : Int, 0 ≤ r ∧ 2*r ≤ K + 1 ∧
        (sysRun now today cfg s sched).db.batches = [c9batch K r]
  | [], s, _, hinv => by
    obtain ⟨r, hr0, hr1, _, hbat⟩ := hinv
    exact ⟨r, hr0, hr1, hbat⟩
  | i :: rest, s, hp, hinv => by
    have hstep := c9_step now today cfg K s i hp hinv
    unfold sysRun at *
    rw [List.foldl_cons]
    exact c9_run now today cfg K rest (sysStep now today cfg s i)
      hstep.1 hstep.2

/-- Claim C9, amended.  In every interleaving of `N` one-unit checkout
attempts against a fresh batch of capacity `K ≥ 0`, the batch's
`reserved_stock` stays between 0 and `K`: no interleaving ever oversells
(indeed `2·reserved ≤ K + 1` always holds, because the double-counted
`available_stock = K - 2·reserved` must still cover each new unit).  The
success count, however, is *not* `min(N, K)` — see the counterexample,
where two fully serialized attempts against `K = 2` yield one success. -/
theorem C9_amended (now today : Int) (cfg : OrderConfig) (K : Int) (N : Nat)
    (sched : List Nat) (hK : 0 ≤ K) :
    ∀ b ∈ (sysRun now today cfg (c9sys K N) sched).db.batches,
      0 ≤ b.reserved_stock ∧ b.reserved_stock ≤ K := by
  obtain ⟨r, hr0, hr1, hbat⟩ := c9_run now today cfg K sched (c9sys K N)
    (by
      intro p hp
      unfold c9sys at hp
      simp only [List.mem_map] at hp
      obtain ⟨j, _, hj⟩ := hp
      rw [← hj])
    ⟨0, le_refl 0, by omega, rfl, rfl⟩
  intro b hb
  rw [hbat] at hb
  simp only [List.mem_singleton] at hb
  rw [hb]
  unfold c9batch
  dsimp only
  omega

/-- Claim C9, witness: the bound instantiated at `K = 2`, `N = 2` and the
sequential schedule. -/
theorem C9_witness :
    (0 : Int) ≤ 2 ∧
    ∀ b ∈ (sysRun 0 0 stdConfig (c9sys 2 2) [0, 0, 1, 1]).db.batches,
      0 ≤ b.reserved_stock ∧ b.reserved_stock ≤ 2 :=
  ⟨by decide, C9_amended 0 0 stdConfig 2 2 [0, 0, 1, 1] (by decide)⟩
